import Mathlib

/-!
Shallow embedding of `src/base.py` (rocm-lens): a one-shot GPU telemetry
probe-and-print tool built on the amdsmi vendor library.

Modelling conventions:
* Python runtime values flowing through the program are modelled by the
  inductive `Val` (strings, numbers, booleans, None, lists, dicts).
  Python numerics (int/float) are modelled exactly as rationals `ℚ`;
  binary floating point rounding is idealized away, and the non-integer
  float `repr` is idealized as a trailing-zero-trimmed 17-digit decimal
  expansion (`decimalRepr`).
* A Python dict is an association list `Dict := List (String × Val)`;
  assignment prepends (last write wins on lookup), `d[k]` is `dget?`
  (returning `none` models a KeyError), `d.get k default` is `pyGet`.
* Each amdsmi call made by the program is one field of `Env`, of type
  `Option r`: `none` models the call raising an exception, `some x` the
  call returning `x`.  A call site appearing twice (`amdsmi_get_power_info`)
  reads the same field twice (the library is deterministic within a run).
* A Python function that can raise an uncaught exception is modelled with
  an `Option` result (`none` = the exception propagates); exception
  payloads (messages) are abstracted to nothing, so `str(e)` in the two
  error `print`s of `main` renders as the empty string.
-/

namespace RocmLens

/-- A Python runtime value as used by `base.py`. -/
inductive Val where
  | str (s : String)
  | num (q : ℚ)
  | boolV (b : Bool)
  | noneV
  | listV (xs : List Val)
  | dictV (xs : List (String × Val))

/-- A Python dict with string keys, as an insertion list (most recent first). -/
abbrev Dict := List (String × Val)

/-- Python dict assignment `d[k] = v` (last write wins on lookup). -/
def dset (d : Dict) (k : String) (v : Val) : Dict := (k, v) :: d

/-- Python dict subscript `d[k]`; `none` models a `KeyError`. -/
def dget? : Dict → String → Option Val
  | [], _ => none
  | (k', v) :: d, k => if k' = k then some v else dget? d k

/-- Python `d.get(k, default)`. -/
def pyGet (d : Dict) (k : String) (default : Val) : Val :=
  (dget? d k).getD default

/-- Python `k in d` for a dict. -/
def hasKey (d : Dict) (k : String) : Bool := (dget? d k).isSome

/-- Python truthiness of a value (`if x:`). -/
def pyTruthy : Val → Bool
  | .str s => !(s == "")
  | .num q => !(q == 0)
  | .boolV b => b
  | .noneV => false
  | .listV xs => !xs.isEmpty
  | .dictV xs => !xs.isEmpty

/-- Python `v == "N/A"` (only the string "N/A" compares equal). -/
def isNA : Val → Bool
  | .str s => s == "N/A"
  | _ => false

/-- Python `v is None`. -/
def isNone : Val → Bool
  | .noneV => true
  | _ => false

/-- The digits of a character list interpreted as a natural number. -/
def digitsNat (cs : List Char) : ℕ :=
  cs.foldl (fun a c => a * 10 + (c.toNat - 48)) 0

/-- Parse an optional exponent sign and digits, as in `float("1e-3")`. -/
def parseExponent (cs : List Char) : Option ℤ :=
  match cs with
  | '+' :: rest => if rest ≠ [] ∧ rest.all Char.isDigit then some (digitsNat rest) else none
  | '-' :: rest => if rest ≠ [] ∧ rest.all Char.isDigit then some (-(digitsNat rest : ℤ)) else none
  | rest => if rest ≠ [] ∧ rest.all Char.isDigit then some (digitsNat rest) else none

/-- Parse the unsigned part of a Python float literal: digits, optional
fractional part, optional exponent. -/
def parseUnsigned (cs : List Char) : Option ℚ :=
  let intPart := cs.takeWhile Char.isDigit
  let rest := cs.dropWhile Char.isDigit
  match rest with
  | [] => if intPart = [] then none else some (digitsNat intPart)
  | '.' :: rest2 =>
    let fracPart := rest2.takeWhile Char.isDigit
    let rest3 := rest2.dropWhile Char.isDigit
    if intPart = [] ∧ fracPart = [] then none
    else
      let base : ℚ := (digitsNat intPart : ℚ) + (digitsNat fracPart : ℚ) / 10 ^ fracPart.length
      match rest3 with
      | [] => some base
      | 'e' :: rest4 => (parseExponent rest4).map (fun ex => base * 10 ^ ex)
      | 'E' :: rest4 => (parseExponent rest4).map (fun ex => base * 10 ^ ex)
      | _ => none
  | 'e' :: rest4 =>
    if intPart = [] then none
    else (parseExponent rest4).map (fun ex => (digitsNat intPart : ℚ) * 10 ^ ex)
  | 'E' :: rest4 =>
    if intPart = [] then none
    else (parseExponent rest4).map (fun ex => (digitsNat intPart : ℚ) * 10 ^ ex)
  | _ => none

/-- Python `float(s)` on a string: strip whitespace, optional sign, number.
(`inf`/`nan` literals are outside the model; they never arise here.)
`none` models a `ValueError`. -/
def parseFloat (s : String) : Option ℚ :=
  match s.trim.toList with
  | '+' :: rest => parseUnsigned rest
  | '-' :: rest => (parseUnsigned rest).map Neg.neg
  | rest => parseUnsigned rest

/-- Python `float(v)`: `none` models `ValueError`/`TypeError` (both caught by
`format_value`/`format_bytes`). -/
def pyFloat : Val → Option ℚ
  | .num q => some q
  | .boolV b => some (if b then 1 else 0)
  | .str s => parseFloat s
  | .noneV => none
  | .listV _ => none
  | .dictV _ => none

/-- Left-pad a string with zeros to the given length. -/
def padZeros (s : String) (n : ℕ) : String :=
  String.mk (List.replicate (n - s.length) '0') ++ s

/-- Round half to even, as Python float formatting does (idealized to ℚ). -/
def roundHalfEven (q : ℚ) : ℤ :=
  let f := ⌊q⌋
  let r := q - f
  if r < 1 / 2 then f
  else if 1 / 2 < r then f + 1
  else if f % 2 = 0 then f else f + 1

/-- Python `f"{q:.pf}"` fixed-point formatting, idealized on exact rationals. -/
def formatFixed (q : ℚ) (prec : ℕ) : String :=
  let scaled := roundHalfEven (q * 10 ^ prec)
  if prec = 0 then toString scaled
  else
    let sign := if scaled < 0 then "-" else ""
    let m := scaled.natAbs
    sign ++ toString (m / 10 ^ prec) ++ "." ++ padZeros (toString (m % 10 ^ prec)) prec

/-- Idealized Python `repr` of a non-integer float: integer part, then the
first 17 fractional digits with trailing zeros trimmed (never empty). -/
def decimalRepr (q : ℚ) : String :=
  let sign := if q < 0 then "-" else ""
  let a := |q|
  let ip := (⌊a⌋).natAbs
  let digs := padZeros (toString ((⌊(a - ⌊a⌋) * 10 ^ 17⌋).natAbs)) 17
  let frac := digs.dropRightWhile (· == '0')
  sign ++ toString ip ++ "." ++ (if frac = "" then "0" else frac)

/-- Python `f"{x}"` for a number `x` after the `is_integer`/`int` conversion
step of `format_value`: integers print with no fractional part. -/
def renderNum (q : ℚ) : String :=
  if q.den = 1 then toString q.num else decimalRepr q

mutual

/-- Python `str(v)` / f-string conversion of a value.  (List/dict element
rendering is simplified: string elements are not re-quoted; no claim
depends on the rendering of nested containers.) -/
def pyStr : Val → String
  | .str s => s
  | .num q => renderNum q
  | .boolV b => if b then "True" else "False"
  | .noneV => "None"
  | .listV xs => "[" ++ pyStrList xs ++ "]"
  | .dictV xs => "\x7b" ++ pyStrDict xs ++ "\x7d"

def pyStrList : List Val → String
  | [] => ""
  | [v] => pyStr v
  | v :: vs => pyStr v ++ ", " ++ pyStrList vs

def pyStrDict : List (String × Val) → String
  | [] => ""
  | [(k, v)] => k ++ ": " ++ pyStr v
  | (k, v) :: vs => k ++ ": " ++ pyStr v ++ ", " ++ pyStrDict vs

end

/-- `format_value` from `base.py`.  The result is `none` exactly when the
uncaught `ZeroDivisionError` is raised (numeric value, zero divisor); the
`except (ValueError, TypeError)` branch falls back to `str(value)`. -/
def format_value (value : Val) (unit : String := "") (divisor : ℚ := 1) : Option String :=
  if isNA value || isNone value then some "N/A"
  else
    match pyFloat value with
    | some q =>
      if divisor = 0 then none
      else some ((renderNum (q / divisor) ++ " " ++ unit).trim)
    | none => some ((pyStr value ++ " " ++ unit).trim)

/-- The unit-scaling loop of `format_bytes`: divide while the value is at
least `divisor` and a larger unit remains. -/
def scaleLoop (v : ℚ) (divisor : ℚ) : List String → ℚ × String
  | [] => (v, "")
  | [u] => (v, u)
  | u :: u2 :: us => if divisor ≤ v then scaleLoop (v / divisor) divisor (u2 :: us) else (v, u)

/-- `format_bytes` from `base.py` (total: its loop structurally terminates,
and its only division is by the constant 1024 or 1000). -/
def format_bytes (value : Val) (use_binary : Bool := true) : String :=
  if isNA value || isNone value then "N/A"
  else
    match pyFloat value with
    | some q =>
      let units := if use_binary then ["B", "KiB", "MiB", "GiB", "TiB"] else ["B", "KB", "MB", "GB", "TB"]
      let divisor : ℚ := if use_binary then 1024 else 1000
      let (v, u) := scaleLoop q divisor units
      formatFixed v 2 ++ " " ++ u
    | none => pyStr value ++ " B"

/-! ## The collector: `get_gpu_info`

The behavior of the vendor library for one device is an `Env`: one field per
amdsmi call site family, `none` meaning the call raises.  `wrapper_enum`
models the `hasattr(amdsmi, 'amdsmi_wrapper')`/`amdsmi_vram_type_t__enumvalues`
introspection (an int-keyed dict of enum names); `none` means the attribute
is absent. -/

structure Env where
  asic_info : Option Dict
  board_info : Option Dict
  device_uuid : Option Val
  device_bdf : Option Val
  driver_info : Option Dict
  vbios_info : Option Dict
  fw_info : Option Dict
  temp_edge_current : Option Val
  temp_junction_current : Option Val
  temp_vram_current : Option Val
  temp_edge_critical : Option Val
  gpu_activity : Option Dict
  gpu_metrics_info : Option Dict
  clock_info_gfx : Option Dict
  clock_info_mem : Option Dict
  clk_freq_gfx : Option Dict
  perf_level : Option Val
  power_info : Option Dict
  power_cap_info : Option Dict
  energy_count : Option Dict
  vram_usage : Option Dict
  vram_info : Option Dict
  vram_vendor : Option Val
  fan_speed : Option Val
  fan_rpms : Option Val
  fan_speed_max : Option Val
  ecc_enabled : Option Val
  total_ecc_count : Option Dict
  bad_page_info : Option Val
  pcie_info : Option Dict
  pci_throughput : Option Val
  xgmi_info : Option Dict
  numa_node : Option Val
  violation_status : Option Dict
  process_list : Option Val
  wrapper_enum : Option (List (ℚ × String))

/-- The sentinel value. -/
def naV : Val := Val.str "N/A"

/-- Lines 45-59: asic info (falling back to board info when the market name
is the sentinel); the `except` branch only sets `product_name`. -/
def asicStep (e : Env) (info : Dict) : Dict :=
  match e.asic_info with
  | none => dset info "product_name" (Val.str "Unknown GPU")
  | some a =>
    let info := dset info "product_name" (pyGet a "market_name" naV)
    let info := dset info "vendor_name" (pyGet a "vendor_name" naV)
    let info := dset info "device_id" (pyGet a "device_id" naV)
    let info := dset info "compute_units" (pyGet a "num_of_compute_units" naV)
    let info := dset info "gfx_version" (pyGet a "target_graphics_version" naV)
    if isNA ((dget? info "product_name").getD Val.noneV) then
      match e.board_info with
      | none => dset info "product_name" (Val.str "Unknown GPU")
      | some b =>
        let info := dset info "product_name" (pyGet b "product_name" (Val.str "Unknown GPU"))
        let info := dset info "manufacturer" (pyGet b "manufacturer_name" naV)
        dset info "serial" (pyGet b "product_serial" naV)
    else info

/-- Lines 61-66: device UUID. -/
def uuidStep (e : Env) (info : Dict) : Dict :=
  let info := dset info "uuid" naV
  match e.device_uuid with
  | none => info
  | some v => dset info "uuid" v

/-- Lines 67-72: BDF. -/
def bdfStep (e : Env) (info : Dict) : Dict :=
  let info := dset info "bdf" naV
  match e.device_bdf with
  | none => info
  | some v => dset info "bdf" v

/-- Lines 73-81: driver info. -/
def driverStep (e : Env) (info : Dict) : Dict :=
  let info := dset (dset info "driver_version" naV) "driver_date" naV
  match e.driver_info with
  | none => info
  | some d =>
    dset (dset info "driver_version" (pyGet d "driver_version" naV))
      "driver_date" (pyGet d "driver_date" naV)

/-- Lines 82-90: VBIOS info. -/
def vbiosStep (e : Env) (info : Dict) : Dict :=
  let info := dset (dset info "vbios_version" naV) "vbios_date" naV
  match e.vbios_info with
  | none => info
  | some d =>
    dset (dset info "vbios_version" (pyGet d "version" naV))
      "vbios_date" (pyGet d "build_date" naV)

/-- Lines 91-98: firmware list (stored whole, only when `fw_list` is present
and truthy). -/
def fwStep (e : Env) (info : Dict) : Dict :=
  let info := dset info "firmware_info" naV
  match e.fw_info with
  | none => info
  | some fw =>
    if hasKey fw "fw_list" && pyTruthy ((dget? fw "fw_list").getD Val.noneV) then
      dset info "firmware_info" (Val.dictV fw)
    else info

/-- Lines 99-108: three temperature probes in a single try block — a failure
skips the later probes of the block. -/
def tempStep (e : Env) (info : Dict) : Dict :=
  let info := dset info "edge_temp" naV
  let info := dset info "junction_temp" naV
  let info := dset info "mem_temp" naV
  match e.temp_edge_current with
  | none => info
  | some v1 =>
    let info := dset info "edge_temp" v1
    match e.temp_junction_current with
    | none => info
    | some v2 =>
      let info := dset info "junction_temp" v2
      match e.temp_vram_current with
      | none => info
      | some v3 => dset info "mem_temp" v3

/-- Lines 109-114: critical temperature limit. -/
def criticalStep (e : Env) (info : Dict) : Dict :=
  let info := dset info "critical_temp" naV
  match e.temp_edge_critical with
  | none => info
  | some v => dset info "critical_temp" v

/-- Lines 115-125: activity/utilization. -/
def activityStep (e : Env) (info : Dict) : Dict :=
  let info := dset info "gpu_util" naV
  let info := dset info "mem_util" naV
  let info := dset info "mm_util" naV
  match e.gpu_activity with
  | none => info
  | some u =>
    let info := dset info "gpu_util" (pyGet u "gfx_activity" naV)
    let info := dset info "mem_util" (pyGet u "umc_activity" naV)
    dset info "mm_util" (pyGet u "mm_activity" naV)

/-- Python `sum` over the collected values (int start 0): `none` models the
`TypeError` raised on a non-numeric element, which the block's `except`
catches. -/
def pySum : List Val → Option ℚ
  | [] => some 0
  | v :: vs =>
    match v with
    | .num q => (pySum vs).map (q + ·)
    | .boolV b => (pySum vs).map ((if b then (1 : ℚ) else 0) + ·)
    | _ => none

/-- Lines 127-139: encoder utilization from the gpu-metrics `vcn_activity`
list; `decoder_util` is initialized to the sentinel and never reassigned. -/
def metricsStep (e : Env) (info : Dict) : Dict :=
  let info := dset info "encoder_util" naV
  let info := dset info "decoder_util" naV
  match e.gpu_metrics_info with
  | none => info
  | some m =>
    if pyTruthy (Val.dictV m) then
      if hasKey m "vcn_activity" then
        match (dget? m "vcn_activity").getD Val.noneV with
        | .listV l =>
          if !l.isEmpty then
            let valid := l.filter (fun v => !(isNA v))
            if !valid.isEmpty then
              match pySum valid with
              | none => info
              | some s => dset info "encoder_util" (Val.num (s / valid.length))
            else info
          else info
        | _ => info
      else info
    else info

/-- Lines 140-145: the six clock fields are pre-initialized together. -/
def clocksInit (_ : Env) (info : Dict) : Dict :=
  let info := dset info "gpu_clock" naV
  let info := dset info "gpu_clock_min" naV
  let info := dset info "gpu_clock_max" naV
  let info := dset info "mem_clock" naV
  let info := dset info "mem_clock_min" naV
  dset info "mem_clock_max" naV

/-- Lines 147-153: graphics clock info. -/
def clockGfxStep (e : Env) (info : Dict) : Dict :=
  match e.clock_info_gfx with
  | none => info
  | some c =>
    let info := dset info "gpu_clock" (pyGet c "clk" naV)
    let info := dset info "gpu_clock_min" (pyGet c "min_clk" naV)
    dset info "gpu_clock_max" (pyGet c "max_clk" naV)

/-- Lines 155-161: memory clock info. -/
def clockMemStep (e : Env) (info : Dict) : Dict :=
  match e.clock_info_mem with
  | none => info
  | some c =>
    let info := dset info "mem_clock" (pyGet c "clk" naV)
    let info := dset info "mem_clock_min" (pyGet c "min_clk" naV)
    dset info "mem_clock_max" (pyGet c "max_clk" naV)

/-- Lines 163-168: available graphics frequencies.  On success without a
`frequency` key the field is never written; on failure it becomes `[]`. -/
def clkFreqStep (e : Env) (info : Dict) : Dict :=
  match e.clk_freq_gfx with
  | none => dset info "gpu_available_freqs" (Val.listV [])
  | some g =>
    if hasKey g "frequency" then
      dset info "gpu_available_freqs" (pyGet g "frequency" (Val.listV []))
    else info

/-- Lines 170-174: performance level. -/
def perfStep (e : Env) (info : Dict) : Dict :=
  let info := dset info "perf_level" naV
  match e.perf_level with
  | none => info
  | some v => dset info "perf_level" v

/-- Lines 176-182: the six power fields are pre-initialized together. -/
def powerInit (_ : Env) (info : Dict) : Dict :=
  let info := dset info "power" naV
  let info := dset info "power_avg" naV
  let info := dset info "power_cap" naV
  let info := dset info "power_cap_default" naV
  let info := dset info "power_cap_min" naV
  dset info "power_cap_max" naV

/-- Lines 184-190: socket power (first `amdsmi_get_power_info` call site). -/
def powerStep (e : Env) (info : Dict) : Dict :=
  match e.power_info with
  | none => info
  | some p =>
    let info := dset info "power" (pyGet p "current_socket_power" naV)
    let info := dset info "power_avg" (pyGet p "average_socket_power" naV)
    dset info "power_cap" (pyGet p "power_limit" naV)

/-- Lines 192-200: power-cap info; the default for `power_cap` is the value
already in the record. -/
def powerCapStep (e : Env) (info : Dict) : Dict :=
  match e.power_cap_info with
  | none => info
  | some p =>
    let info := dset info "power_cap" (pyGet p "power_cap" ((dget? info "power_cap").getD Val.noneV))
    let info := dset info "power_cap_default" (pyGet p "default_power_cap" naV)
    let info := dset info "power_cap_min" (pyGet p "min_power_cap" naV)
    dset info "power_cap_max" (pyGet p "max_power_cap" naV)

/-- Lines 202-208: energy counter. -/
def energyStep (e : Env) (info : Dict) : Dict :=
  let info := dset info "energy_counter" naV
  match e.energy_count with
  | none => info
  | some d => dset info "energy_counter" (pyGet d "energy_accumulator" naV)

/-- Lines 210-220: voltages (second `amdsmi_get_power_info` call site). -/
def voltageStep (e : Env) (info : Dict) : Dict :=
  let info := dset info "voltage_gfx" naV
  let info := dset info "voltage_soc" naV
  let info := dset info "voltage_mem" naV
  match e.power_info with
  | none => info
  | some p =>
    let info := dset info "voltage_gfx" (pyGet p "gfx_voltage" naV)
    let info := dset info "voltage_soc" (pyGet p "soc_voltage" naV)
    dset info "voltage_mem" (pyGet p "mem_voltage" naV)

/-- Lines 222-230: VRAM usage. -/
def vramUsageStep (e : Env) (info : Dict) : Dict :=
  let info := dset info "vram_used" naV
  let info := dset info "vram_total" naV
  match e.vram_usage with
  | none => info
  | some d =>
    let info := dset info "vram_used" (pyGet d "vram_used" naV)
    dset info "vram_total" (pyGet d "vram_total" naV)

/-- Look up a numeric key in the wrapper enum dict (`vram_type_val in
enum_values`); non-numeric values are not keys of the int-keyed dict. -/
def enumLookup (enumvals : List (ℚ × String)) : Val → Option String
  | .num q => (enumvals.find? (fun p => p.1 == q)).map (·.2)
  | _ => none

/-- Lines 232-254: VRAM type/vendor/bit width.  The enum branch writes
`vram_type` only when the value is a key of the wrapper enum; the vendor
probe sits inside this block (its own nested try). -/
def vramInfoStep (e : Env) (info : Dict) : Dict :=
  let info := dset info "vram_type" naV
  let info := dset info "vram_vendor" naV
  let info := dset info "vram_bit_width" naV
  match e.vram_info with
  | none => info
  | some vd =>
    if pyTruthy (Val.dictV vd) then
      let vtv := pyGet vd "vram_type" naV
      let info :=
        match e.wrapper_enum with
        | some enumvals =>
          match enumLookup enumvals vtv with
          | some s => dset info "vram_type" (Val.str (s.replace "AMDSMI_VRAM_TYPE_" ""))
          | none => info
        | none => dset info "vram_type" vtv
      let info := dset info "vram_bit_width" (pyGet vd "vram_bit_width" naV)
      match e.vram_vendor with
      | none => info
      | some vv => dset info "vram_vendor" vv
    else info

/-- Lines 256-264: fan speed percent and RPM share one try block (the RPM
probe is skipped if the percent probe fails); `fan_max_rpm` is
pre-initialized here with them. -/
def fanStep (e : Env) (info : Dict) : Dict :=
  let info := dset info "fan_speed_pct" naV
  let info := dset info "fan_speed_rpm" naV
  let info := dset info "fan_max_rpm" naV
  match e.fan_speed with
  | none => info
  | some v1 =>
    let info := dset info "fan_speed_pct" v1
    match e.fan_rpms with
    | none => info
    | some v2 => dset info "fan_speed_rpm" v2

/-- Lines 266-269: maximum fan RPM. -/
def fanMaxStep (e : Env) (info : Dict) : Dict :=
  match e.fan_speed_max with
  | none => info
  | some v => dset info "fan_max_rpm" v

/-- Lines 271-279: ECC enabled flag (with the three ECC fields
pre-initialized together). -/
def eccEnabledStep (e : Env) (info : Dict) : Dict :=
  let info := dset info "ecc_enabled" naV
  let info := dset info "single_ecc" naV
  let info := dset info "double_ecc" naV
  match e.ecc_enabled with
  | none => info
  | some v =>
    dset info "ecc_enabled" (if isNA v then naV else Val.boolV (pyTruthy v))

/-- Lines 281-286: ECC error counts. -/
def eccCountStep (e : Env) (info : Dict) : Dict :=
  match e.total_ecc_count with
  | none => info
  | some d =>
    let info := dset info "single_ecc" (pyGet d "correctable_count" naV)
    dset info "double_ecc" (pyGet d "uncorrectable_count" naV)

/-- Lines 288-294: bad page count (`len` when the result is a list). -/
def badPagesStep (e : Env) (info : Dict) : Dict :=
  let info := dset info "bad_pages" naV
  match e.bad_page_info with
  | none => info
  | some v =>
    match v with
    | .listV l => dset info "bad_pages" (Val.num l.length)
    | _ => dset info "bad_pages" naV

/-- Lines 310-313: the `pcie_static` part of the PCIe block (reached only
when the metric part did not raise); a non-dict `pcie_static` value raises
before any assignment, leaving the record as it was. -/
def pcieStaticPart (p : Dict) (info2 : Dict) : Dict :=
  if hasKey p "pcie_static" then
    match (dget? p "pcie_static").getD Val.noneV with
    | .dictV s =>
      dset (dset info2 "pcie_max_width" (pyGet s "max_pcie_width" naV))
        "pcie_max_speed" (pyGet s "max_pcie_speed" naV)
    | _ => info2
  else info2

/-- Lines 296-315: PCIe metric and static info.  A non-dict `pcie_metric`
value raises (`.get` on a non-dict) before any assignment, aborting the
whole block; a non-dict `pcie_static` aborts only the static part. -/
def pcieStep (e : Env) (info : Dict) : Dict :=
  let info := dset info "pcie_width" naV
  let info := dset info "pcie_speed" naV
  let info := dset info "pcie_max_width" naV
  let info := dset info "pcie_max_speed" naV
  let info := dset info "pcie_replay_count" naV
  match e.pcie_info with
  | none => info
  | some p =>
    if hasKey p "pcie_metric" then
      match (dget? p "pcie_metric").getD Val.noneV with
      | .dictV m =>
        pcieStaticPart p (dset (dset (dset info "pcie_width" (pyGet m "pcie_width" naV))
          "pcie_speed" (pyGet m "pcie_speed" naV))
          "pcie_replay_count" (pyGet m "pcie_replay_count" naV))
      | _ => info
    else pcieStaticPart p info

/-- Lines 317-326: PCIe throughput (only consumed when the result is a dict). -/
def throughputStep (e : Env) (info : Dict) : Dict :=
  let info := dset info "pcie_tx" naV
  let info := dset info "pcie_rx" naV
  match e.pci_throughput with
  | none => info
  | some t =>
    match t with
    | .dictV d =>
      let info := dset info "pcie_tx" (pyGet d "sent" naV)
      dset info "pcie_rx" (pyGet d "received" naV)
    | _ => info

/-- Lines 328-335: XGMI info (stored whole when truthy). -/
def xgmiStep (e : Env) (info : Dict) : Dict :=
  let info := dset info "xgmi_info" naV
  match e.xgmi_info with
  | none => info
  | some x =>
    if pyTruthy (Val.dictV x) then dset info "xgmi_info" (Val.dictV x) else info

/-- Lines 337-342: NUMA node. -/
def numaStep (e : Env) (info : Dict) : Dict :=
  let info := dset info "numa_node" naV
  match e.numa_node with
  | none => info
  | some v => dset info "numa_node" v

/-- Lines 344-363: throttle status from three boolean violation flags. -/
def violationStep (e : Env) (info : Dict) : Dict :=
  let info := dset info "throttle_status" naV
  match e.violation_status with
  | none => info
  | some v =>
    if pyTruthy (Val.dictV v) then
      let throttle_types :=
        (if pyTruthy (pyGet v "active_ppt_pwr" (Val.boolV false)) then ["Power"] else []) ++
        (if pyTruthy (pyGet v "active_socket_thrm" (Val.boolV false)) then ["Thermal"] else []) ++
        (if pyTruthy (pyGet v "active_prochot_thrm" (Val.boolV false)) then ["Prochot"] else [])
      if !throttle_types.isEmpty then
        dset info "throttle_status" (Val.str (String.intercalate ", " throttle_types))
      else dset info "throttle_status" (Val.str "None")
    else info

/-- Lines 365-371: process list (kept only when truthy). -/
def processStep (e : Env) (info : Dict) : Dict :=
  let info := dset info "processes" (Val.listV [])
  match e.process_list with
  | none => info
  | some v => if pyTruthy v then dset info "processes" v else info

/-- `get_gpu_info` from `base.py`: the fixed sequence of guarded probes,
starting from the empty record.  Total: every amdsmi call is inside a
try/except in the source, so the collector itself never raises. -/
def get_gpu_info (e : Env) : Dict :=
  processStep e (violationStep e (numaStep e (xgmiStep e (throughputStep e
    (pcieStep e (badPagesStep e (eccCountStep e (eccEnabledStep e
    (fanMaxStep e (fanStep e (vramInfoStep e (vramUsageStep e
    (voltageStep e (energyStep e (powerCapStep e (powerStep e
    (powerInit e (perfStep e (clkFreqStep e (clockMemStep e
    (clockGfxStep e (clocksInit e (metricsStep e (activityStep e
    (criticalStep e (tempStep e (fwStep e (vbiosStep e (driverStep e
    (bdfStep e (uuidStep e (asicStep e []))))))))))))))))))))))))))))))))

/-! ## The reporter: `print_gpu_info`

The reporter is modelled as a function from a record to the list of strings
passed to `print`, together with a flag: `true` means it completed
normally, `false` means an uncaught exception escaped after the returned
lines were printed (a `KeyError` from a direct subscript, the
`ZeroDivisionError`/`ValueError` of the usage percentage, or a bad process
entry). -/

/-- Right-pad with spaces to width `n` (`str.ljust` / format `:<n`). -/
def padRight (s : String) (n : ℕ) : String :=
  s ++ String.mk (List.replicate (n - s.length) ' ')

/-- Left-pad with spaces to width `n` (format `:>n`). -/
def padLeft (s : String) (n : ℕ) : String :=
  String.mk (List.replicate (n - s.length) ' ') ++ s

/-- Line 427-429: the "Usage Percentage" value.  `none` models the uncaught
`ZeroDivisionError` (zero total) or `ValueError`/`TypeError` of `float`. -/
def usagePct (used total : Val) : Option Val :=
  if isNA used || isNA total then some naV
  else do
    let u ← pyFloat used
    let t ← pyFloat total
    if t = 0 then none else some (Val.str (formatFixed (100 * u / t) 1))

/-- Lines 405, 407, 413: a range entry's value is built by string
concatenation of the min and max field values before any formatting. -/
def rangeValue (mn mx : Val) : Val :=
  Val.str (pyStr mn ++ " - " ++ pyStr mx)

/-- The field names the report template reads with a direct subscript
(lines 381-450), in source order.  `product_name` and `bdf` are read
earlier, by the title line (line 377). -/
def sectionKeys : List String :=
  ["uuid", "device_id", "compute_units", "gfx_version", "driver_version",
   "vbios_version", "gpu_util", "mem_util", "mm_util", "encoder_util",
   "decoder_util", "perf_level", "edge_temp", "junction_temp", "mem_temp",
   "critical_temp", "throttle_status", "gpu_clock", "gpu_clock_min",
   "gpu_clock_max", "mem_clock", "mem_clock_min", "mem_clock_max", "power",
   "power_avg", "power_cap", "power_cap_min", "power_cap_max",
   "power_cap_default", "voltage_gfx", "voltage_soc", "voltage_mem",
   "vram_type", "vram_vendor", "vram_bit_width", "vram_used", "vram_total",
   "fan_speed_pct", "fan_speed_rpm", "fan_max_rpm", "pcie_width",
   "pcie_speed", "pcie_max_width", "pcie_max_speed", "pcie_tx", "pcie_rx",
   "pcie_replay_count", "numa_node", "ecc_enabled", "single_ecc",
   "double_ecc", "bad_pages"]

/-- Total lookup used by the template once presence of the key is
established (the default is unreachable then). -/
def dsub (info : Dict) (k : String) : Val :=
  (dget? info k).getD Val.noneV

/-- The section template (lines 379-452) as a pure function of the record,
given that every subscript succeeded and the usage percentage computed. -/
def sectionsOf (info : Dict) (pct : Val) : List (String × List (String × Val × String)) :=
  let uuid := dsub info "uuid"
  let device_id := dsub info "device_id"
  let compute_units := dsub info "compute_units"
  let gfx_version := dsub info "gfx_version"
  let driver_version := dsub info "driver_version"
  let vbios_version := dsub info "vbios_version"
  let gpu_clock_min := dsub info "gpu_clock_min"
  let gpu_clock_max := dsub info "gpu_clock_max"
  let mem_clock_min := dsub info "mem_clock_min"
  let mem_clock_max := dsub info "mem_clock_max"
  let power_cap_min := dsub info "power_cap_min"
  let power_cap_max := dsub info "power_cap_max"
  let gpu_util := dsub info "gpu_util"
  let mem_util := dsub info "mem_util"
  let mm_util := dsub info "mm_util"
  let encoder_util := dsub info "encoder_util"
  let decoder_util := dsub info "decoder_util"
  let perf_level := dsub info "perf_level"
  let edge_temp := dsub info "edge_temp"
  let junction_temp := dsub info "junction_temp"
  let mem_temp := dsub info "mem_temp"
  let critical_temp := dsub info "critical_temp"
  let throttle_status := dsub info "throttle_status"
  let gpu_clock := dsub info "gpu_clock"
  let mem_clock := dsub info "mem_clock"
  let power := dsub info "power"
  let power_avg := dsub info "power_avg"
  let power_cap := dsub info "power_cap"
  let power_cap_default := dsub info "power_cap_default"
  let voltage_gfx := dsub info "voltage_gfx"
  let voltage_soc := dsub info "voltage_soc"
  let voltage_mem := dsub info "voltage_mem"
  let vram_type := dsub info "vram_type"
  let vram_vendor := dsub info "vram_vendor"
  let vram_bit_width := dsub info "vram_bit_width"
  let vram_used := dsub info "vram_used"
  let vram_total := dsub info "vram_total"
  let fan_speed_pct := dsub info "fan_speed_pct"
  let fan_speed_rpm := dsub info "fan_speed_rpm"
  let fan_max_rpm := dsub info "fan_max_rpm"
  let pcie_width := dsub info "pcie_width"
  let pcie_speed := dsub info "pcie_speed"
  let pcie_max_width := dsub info "pcie_max_width"
  let pcie_max_speed := dsub info "pcie_max_speed"
  let pcie_tx := dsub info "pcie_tx"
  let pcie_rx := dsub info "pcie_rx"
  let pcie_replay_count := dsub info "pcie_replay_count"
  let numa_node := dsub info "numa_node"
  let ecc_enabled := dsub info "ecc_enabled"
  let single_ecc := dsub info "single_ecc"
  let double_ecc := dsub info "double_ecc"
  let bad_pages := dsub info "bad_pages"
  [
    ("Identification", [
      ("UUID", uuid, ""),
      ("Device ID", device_id, ""),
      ("Compute Units", compute_units, ""),
      ("Architecture", gfx_version, ""),
      ("Driver Version", driver_version, ""),
      ("VBIOS Version", vbios_version, "")]),
    ("Utilization", [
      ("GPU Utilization", gpu_util, "%"),
      ("Memory Utilization", mem_util, "%"),
      ("Multimedia Engine", mm_util, "%"),
      ("Encoder Utilization", encoder_util, "%"),
      ("Decoder Utilization", decoder_util, "%"),
      ("Performance Level", perf_level, "")]),
    ("Temperature", [
      ("Edge Temperature", edge_temp, "°C"),
      ("Junction Temperature", junction_temp, "°C"),
      ("Memory Temperature", mem_temp, "°C"),
      ("Critical Limit", critical_temp, "°C"),
      ("Throttling", throttle_status, "")]),
    ("Clocks", [
      ("GPU Clock Current", gpu_clock, "MHz"),
      ("GPU Clock Range", rangeValue gpu_clock_min gpu_clock_max, "MHz"),
      ("Memory Clock Current", mem_clock, "MHz"),
      ("Memory Clock Range", rangeValue mem_clock_min mem_clock_max, "MHz")]),
    ("Power", [
      ("Current Consumption", power, "W"),
      ("Average Consumption", power_avg, "W"),
      ("Power Cap", power_cap, "W"),
      ("Power Cap Range", rangeValue power_cap_min power_cap_max, "W"),
      ("Default Power Cap", power_cap_default, "W")]),
    ("Voltage", [
      ("GPU Voltage", voltage_gfx, "mV"),
      ("SOC Voltage", voltage_soc, "mV"),
      ("Memory Voltage", voltage_mem, "mV")]),
    ("Memory", [
      ("Type", vram_type, ""),
      ("Vendor", vram_vendor, ""),
      ("Bus Width", vram_bit_width, "bits"),
      ("VRAM Used", vram_used, "MB"),
      ("VRAM Total", vram_total, "MB"),
      ("Usage Percentage", pct, "%")]),
    ("Cooling", [
      ("Fan Speed", fan_speed_pct, "%"),
      ("Fan RPM", fan_speed_rpm, "RPM"),
      ("Max Fan RPM", fan_max_rpm, "RPM")]),
    ("PCIe", [
      ("Current Width", pcie_width, "lanes"),
      ("Current Speed", pcie_speed, "GT/s"),
      ("Maximum Width", pcie_max_width, "lanes"),
      ("Maximum Speed", pcie_max_speed, "GT/s"),
      ("Throughput TX", pcie_tx, "MB/s"),
      ("Throughput RX", pcie_rx, "MB/s"),
      ("Replay Count", pcie_replay_count, ""),
      ("NUMA Node", numa_node, "")]),
    ("Reliability", [
      ("ECC Enabled", ecc_enabled, ""),
      ("Single-bit ECC Errors", single_ecc, ""),
      ("Double-bit ECC Errors", double_ecc, ""),
      ("Bad Pages", bad_pages, "pages")])]

/-- Lines 379-452: building the section template.  Every field is read with
a direct subscript, so a missing key raises a `KeyError`, and the usage
percentage can raise; both yield `none`.  Since the model does not
distinguish exceptions, the sequence of subscripts is modelled as a
presence check over `sectionKeys` followed by total lookups. -/
def buildSections (info : Dict) : Option (List (String × List (String × Val × String))) :=
  if sectionKeys.all (hasKey info) then
    match usagePct (dsub info "vram_used") (dsub info "vram_total") with
    | none => none
    | some pct => some (sectionsOf info pct)
  else none

/-- Python `len(v)`: `none` models the `TypeError` on unsized values. -/
def pyLen : Val → Option ℕ
  | .str s => some s.length
  | .listV l => some l.length
  | .dictV d => some d.length
  | _ => none

/-- Python iteration `for x in v`: `none` models `TypeError` on
non-iterables (strings yield characters, dicts their keys). -/
def pyElems : Val → Option (List Val)
  | .listV l => some l
  | .str s => some (s.toList.map (fun c => Val.str (String.mk [c])))
  | .dictV d => some (d.map (fun p => Val.str p.1))
  | _ => none

/-- Lines 473-480: one process-table row.  `none` models the exceptions a
malformed entry raises (`.get` on a non-dict, slicing a non-string name). -/
def procRow (proc : Val) : Option String :=
  match proc with
  | .dictV d =>
    let pid := pyGet d "pid" naV
    match pyGet d "name" naV with
    | .str nm =>
      match pyGet d "memory_usage" (Val.dictV []) with
      | .dictV md =>
        let vram := format_bytes (pyGet md "vram_mem" naV) true
        match pyGet d "engine_usage" (Val.dictV []) with
        | .dictV ed =>
          let gpu_usage := pyStr (pyGet ed "gfx" naV) ++ "%"
          let enc_usage := pyStr (pyGet ed "enc" naV) ++ "%"
          some ("  " ++ padLeft (pyStr pid) 7 ++ "  " ++ padRight (nm.take 20) 20 ++
            "  " ++ padLeft vram 10 ++ "  " ++ padLeft gpu_usage 8 ++ "  " ++ padLeft enc_usage 8)
        | _ => none
      | _ => none
    | _ => none
  | _ => none

/-- The process-table rows printed before a malformed entry stops the loop
(`true` = all rows printed). -/
def procRows : List Val → List String × Bool
  | [] => ([], true)
  | p :: ps =>
    match procRow p with
    | none => ([], false)
    | some r =>
      let rest := procRows ps
      (r :: rest.1, rest.2)

/-- The fixed process-table header row (line 464-470). -/
def procHeader : String :=
  "  " ++ padLeft "PID" 7 ++ "  " ++ padRight "NAME" 20 ++ "  " ++
    padLeft "VRAM USAGE" 10 ++ "  " ++ padLeft "GPU UTIL" 8 ++ "  " ++ padLeft "ENC UTIL" 8

/-- `print_gpu_info` from `base.py`: the printed lines, and whether it
completed without an uncaught exception.  (`format_value` is applied with
the default divisor 1, for which it cannot raise; the `getD ""` default in
the section lines is unreachable.) -/
def print_gpu_info (gpu_index : ℕ) (info : Dict) : List String × Bool :=
  let banner := String.mk (List.replicate 80 '=')
  let out0 := ["\n" ++ banner]
  match dget? info "product_name", dget? info "bdf" with
  | some pn, some bdf =>
    let out1 := out0 ++
      ["GPU " ++ toString gpu_index ++ ": " ++ pyStr pn ++ " (" ++ pyStr bdf ++ ")", banner]
    match buildSections info with
    | none => (out1, false)
    | some sections =>
      let all_metrics := (sections.map (fun s => s.2)).flatten
      let max_label_length := all_metrics.foldl (fun acc m => max acc m.1.length) 0
      let sectionOut := sections.flatMap (fun s =>
        ("\n" ++ s.1 ++ ":") :: s.2.map (fun m =>
          "  " ++ padRight m.1 max_label_length ++ " : " ++ (format_value m.2.1 m.2.2 1).getD ""))
      let out2 := out1 ++ sectionOut
      match dget? info "processes" with
      | none => (out2, false)
      | some procs =>
        if !(pyTruthy procs) then (out2, true)
        else
          match pyLen procs with
          | none => (out2, false)
          | some n =>
            if n > 0 then
              let hdr := ["\nProcesses:", procHeader, "  " ++ String.mk (List.replicate 60 '-')]
              match pyElems procs with
              | none => (out2 ++ hdr, false)
              | some ps =>
                let rows := procRows ps
                (out2 ++ hdr ++ rows.1, rows.2)
            else (out2, true)
  | _, _ => (out0, false)

/-! ## The driver: `main`

`main` is modelled over a `MainEnv`: whether `amdsmi_init` succeeds, what
`amdsmi_get_processor_handles` returns (`none`: it raises), and whether
`amdsmi_shut_down` raises.  The result is the list of printed lines and the
number of times the shutdown call was invoked.  The `try/finally` of the
source runs the shutdown exactly once on every path, and the inner
`try/except: pass` around it suppresses its failure, printing nothing. -/

structure MainEnv where
  initOk : Bool
  handles : Option (List Env)
  shutdownFails : Bool

/-- `main` from `base.py` (lines 482-505): the try-block body (whose
exceptions are all caught), then the `finally` clause invoking shutdown
once, whose own failure is suppressed without output. -/
def mainRun (me : MainEnv) : List String × ℕ :=
  let body : List String :=
    match me.initOk, me.handles with
    | false, _ => ["Error initializing AMD SMI: "]
    | true, none => ["Error initializing AMD SMI: "]
    | true, some gpu_handles =>
      if gpu_handles.length = 0 then ["No AMD GPUs detected on this machine"]
      else
        ("Found " ++ toString gpu_handles.length ++ " AMD GPU(s)") ::
        (gpu_handles.enum.flatMap (fun p =>
          let r := print_gpu_info p.1 (get_gpu_info p.2)
          if r.2 then r.1
          else r.1 ++ ["\nError retrieving information for GPU " ++ toString p.1 ++ ": "]))
  let shutdownOut : List String := if me.shutdownFails then [] else []
  (body ++ shutdownOut, 1)

/-! ## A concrete fully-succeeding library behavior, and single failures

`allOk` is a vendor-library behavior in which every call succeeds with
distinct, representative values.  `Call` enumerates the library call
(families) the collector makes; `failOne c` is `allOk` with exactly the
call `c` raising. -/

def asicOk : Dict :=
  [("market_name", Val.str "Radeon RX 7900"), ("vendor_name", Val.str "AMD"),
   ("device_id", Val.str "0x744c"), ("num_of_compute_units", Val.num 96),
   ("target_graphics_version", Val.str "gfx1100")]

def allOk : Env where
  asic_info := some asicOk
  board_info := some [("product_name", Val.str "Board 7900"),
    ("manufacturer_name", Val.str "AMD"), ("product_serial", Val.str "SN123")]
  device_uuid := some (Val.str "uuid-1234")
  device_bdf := some (Val.str "0000:03:00.0")
  driver_info := some [("driver_version", Val.str "6.7.0"), ("driver_date", Val.str "2025-01-01")]
  vbios_info := some [("version", Val.str "vb-1"), ("build_date", Val.str "2024-12-01")]
  fw_info := some [("fw_list", Val.listV [Val.dictV [("fw_name", Val.str "SMU"), ("fw_version", Val.num 85)]])]
  temp_edge_current := some (Val.num 55)
  temp_junction_current := some (Val.num 65)
  temp_vram_current := some (Val.num 62)
  temp_edge_critical := some (Val.num 100)
  gpu_activity := some [("gfx_activity", Val.num 12), ("umc_activity", Val.num 7), ("mm_activity", Val.num 3)]
  gpu_metrics_info := some [("vcn_activity", Val.listV [Val.num 10, Val.str "N/A", Val.num 20])]
  clock_info_gfx := some [("clk", Val.num 2100), ("min_clk", Val.num 500), ("max_clk", Val.num 2900)]
  clock_info_mem := some [("clk", Val.num 1200), ("min_clk", Val.num 97), ("max_clk", Val.num 1300)]
  clk_freq_gfx := some [("frequency", Val.listV [Val.num 500, Val.num 1500, Val.num 2900])]
  perf_level := some (Val.str "AUTO")
  power_info := some [("current_socket_power", Val.num 220), ("average_socket_power", Val.num 210),
    ("power_limit", Val.num 300), ("gfx_voltage", Val.num 750), ("soc_voltage", Val.num 900),
    ("mem_voltage", Val.num 1250)]
  power_cap_info := some [("power_cap", Val.num 305), ("default_power_cap", Val.num 300),
    ("min_power_cap", Val.num 200), ("max_power_cap", Val.num 350)]
  energy_count := some [("energy_accumulator", Val.num 123456)]
  vram_usage := some [("vram_used", Val.num 512), ("vram_total", Val.num 24576)]
  vram_info := some [("vram_type", Val.num 9), ("vram_bit_width", Val.num 384)]
  vram_vendor := some (Val.str "samsung")
  fan_speed := some (Val.num 35)
  fan_rpms := some (Val.num 1500)
  fan_speed_max := some (Val.num 3200)
  ecc_enabled := some (Val.boolV true)
  total_ecc_count := some [("correctable_count", Val.num 0), ("uncorrectable_count", Val.num 1)]
  bad_page_info := some (Val.listV [])
  pcie_info := some [("pcie_metric", Val.dictV [("pcie_width", Val.num 16), ("pcie_speed", Val.num 16),
    ("pcie_replay_count", Val.num 2)]), ("pcie_static", Val.dictV [("max_pcie_width", Val.num 16),
    ("max_pcie_speed", Val.num 32)])]
  pci_throughput := some (Val.dictV [("sent", Val.num 100), ("received", Val.num 200)])
  xgmi_info := some [("xgmi_lanes", Val.num 16)]
  numa_node := some (Val.num 0)
  violation_status := some [("active_ppt_pwr", Val.boolV true), ("active_socket_thrm", Val.boolV false),
    ("active_prochot_thrm", Val.boolV false)]
  process_list := some (Val.listV [Val.dictV [("pid", Val.num 4242),
    ("name", Val.str "python3-train-llm-job"),
    ("memory_usage", Val.dictV [("vram_mem", Val.num 1073741824)]),
    ("engine_usage", Val.dictV [("gfx", Val.num 55), ("enc", Val.num 0)])]])
  wrapper_enum := some [((9 : ℚ), "AMDSMI_VRAM_TYPE_GDDR6")]

/-! ## Per-field functional characterization of the collector

`fieldSpec k e` gives, for each record field `k`, the value (`none` = the
key is absent) that `get_gpu_info` produces, as an explicit function of only
the library calls of `k`'s own try block.  The dependency structure makes
the fault-containment behavior explicit: a call's outcome can influence only
the fields of its own block, and within a block a failed call blanks the
fields of the calls after it (which are skipped). -/

/-- `true` exactly on dict values (`isinstance(v, dict)`). -/
def isDictVal : Val → Bool
  | .dictV _ => true
  | _ => false

def fs_product_name (e : Env) : Option Val :=
  some (match e.asic_info with
    | none => Val.str "Unknown GPU"
    | some a =>
      if isNA (pyGet a "market_name" naV) then
        match e.board_info with
        | none => Val.str "Unknown GPU"
        | some b => pyGet b "product_name" (Val.str "Unknown GPU")
      else pyGet a "market_name" naV)

def fs_vendor_name (e : Env) : Option Val :=
  match e.asic_info with
  | none => none
  | some a => some (pyGet a "vendor_name" naV)

def fs_device_id (e : Env) : Option Val :=
  match e.asic_info with
  | none => none
  | some a => some (pyGet a "device_id" naV)

def fs_compute_units (e : Env) : Option Val :=
  match e.asic_info with
  | none => none
  | some a => some (pyGet a "num_of_compute_units" naV)

def fs_gfx_version (e : Env) : Option Val :=
  match e.asic_info with
  | none => none
  | some a => some (pyGet a "target_graphics_version" naV)

def fs_manufacturer (e : Env) : Option Val :=
  match e.asic_info with
  | none => none
  | some a =>
    if isNA (pyGet a "market_name" naV) then
      match e.board_info with
      | none => none
      | some b => some (pyGet b "manufacturer_name" naV)
    else none

def fs_serial (e : Env) : Option Val :=
  match e.asic_info with
  | none => none
  | some a =>
    if isNA (pyGet a "market_name" naV) then
      match e.board_info with
      | none => none
      | some b => some (pyGet b "product_serial" naV)
    else none

def fs_uuid (e : Env) : Option Val := some (e.device_uuid.getD naV)

def fs_bdf (e : Env) : Option Val := some (e.device_bdf.getD naV)

def fs_driver_version (e : Env) : Option Val :=
  some (match e.driver_info with | none => naV | some d => pyGet d "driver_version" naV)

def fs_driver_date (e : Env) : Option Val :=
  some (match e.driver_info with | none => naV | some d => pyGet d "driver_date" naV)

def fs_vbios_version (e : Env) : Option Val :=
  some (match e.vbios_info with | none => naV | some d => pyGet d "version" naV)

def fs_vbios_date (e : Env) : Option Val :=
  some (match e.vbios_info with | none => naV | some d => pyGet d "build_date" naV)

def fs_firmware_info (e : Env) : Option Val :=
  some (match e.fw_info with
    | none => naV
    | some fw =>
      if hasKey fw "fw_list" && pyTruthy ((dget? fw "fw_list").getD Val.noneV) then
        Val.dictV fw
      else naV)

def fs_edge_temp (e : Env) : Option Val := some (e.temp_edge_current.getD naV)

def fs_junction_temp (e : Env) : Option Val :=
  some (match e.temp_edge_current with
    | none => naV
    | some _ => e.temp_junction_current.getD naV)

def fs_mem_temp (e : Env) : Option Val :=
  some (match e.temp_edge_current with
    | none => naV
    | some _ =>
      match e.temp_junction_current with
      | none => naV
      | some _ => e.temp_vram_current.getD naV)

def fs_critical_temp (e : Env) : Option Val := some (e.temp_edge_critical.getD naV)

def fs_gpu_util (e : Env) : Option Val :=
  some (match e.gpu_activity with | none => naV | some u => pyGet u "gfx_activity" naV)

def fs_mem_util (e : Env) : Option Val :=
  some (match e.gpu_activity with | none => naV | some u => pyGet u "umc_activity" naV)

def fs_mm_util (e : Env) : Option Val :=
  some (match e.gpu_activity with | none => naV | some u => pyGet u "mm_activity" naV)

def fs_encoder_util (e : Env) : Option Val :=
  some (match e.gpu_metrics_info with
    | none => naV
    | some m =>
      if pyTruthy (Val.dictV m) then
        if hasKey m "vcn_activity" then
          match (dget? m "vcn_activity").getD Val.noneV with
          | .listV l =>
            if !l.isEmpty then
              let valid := l.filter (fun v => !(isNA v))
              if !valid.isEmpty then
                match pySum valid with
                | none => naV
                | some s => Val.num (s / valid.length)
              else naV
            else naV
          | _ => naV
        else naV
      else naV)

def fs_decoder_util (_ : Env) : Option Val := some naV

def fs_gpu_clock (e : Env) : Option Val :=
  some (match e.clock_info_gfx with | none => naV | some c => pyGet c "clk" naV)

def fs_gpu_clock_min (e : Env) : Option Val :=
  some (match e.clock_info_gfx with | none => naV | some c => pyGet c "min_clk" naV)

def fs_gpu_clock_max (e : Env) : Option Val :=
  some (match e.clock_info_gfx with | none => naV | some c => pyGet c "max_clk" naV)

def fs_mem_clock (e : Env) : Option Val :=
  some (match e.clock_info_mem with | none => naV | some c => pyGet c "clk" naV)

def fs_mem_clock_min (e : Env) : Option Val :=
  some (match e.clock_info_mem with | none => naV | some c => pyGet c "min_clk" naV)

def fs_mem_clock_max (e : Env) : Option Val :=
  some (match e.clock_info_mem with | none => naV | some c => pyGet c "max_clk" naV)

def fs_gpu_available_freqs (e : Env) : Option Val :=
  match e.clk_freq_gfx with
  | none => some (Val.listV [])
  | some g =>
    if hasKey g "frequency" then some (pyGet g "frequency" (Val.listV [])) else none

def fs_perf_level (e : Env) : Option Val := some (e.perf_level.getD naV)

def fs_power (e : Env) : Option Val :=
  some (match e.power_info with | none => naV | some p => pyGet p "current_socket_power" naV)

def fs_power_avg (e : Env) : Option Val :=
  some (match e.power_info with | none => naV | some p => pyGet p "average_socket_power" naV)

def fs_power_cap (e : Env) : Option Val :=
  some (match e.power_cap_info with
    | none => (match e.power_info with | none => naV | some p => pyGet p "power_limit" naV)
    | some pc =>
      pyGet pc "power_cap"
        (match e.power_info with | none => naV | some p => pyGet p "power_limit" naV))

def fs_power_cap_default (e : Env) : Option Val :=
  some (match e.power_cap_info with | none => naV | some pc => pyGet pc "default_power_cap" naV)

def fs_power_cap_min (e : Env) : Option Val :=
  some (match e.power_cap_info with | none => naV | some pc => pyGet pc "min_power_cap" naV)

def fs_power_cap_max (e : Env) : Option Val :=
  some (match e.power_cap_info with | none => naV | some pc => pyGet pc "max_power_cap" naV)

def fs_energy_counter (e : Env) : Option Val :=
  some (match e.energy_count with | none => naV | some d => pyGet d "energy_accumulator" naV)

def fs_voltage_gfx (e : Env) : Option Val :=
  some (match e.power_info with | none => naV | some p => pyGet p "gfx_voltage" naV)

def fs_voltage_soc (e : Env) : Option Val :=
  some (match e.power_info with | none => naV | some p => pyGet p "soc_voltage" naV)

def fs_voltage_mem (e : Env) : Option Val :=
  some (match e.power_info with | none => naV | some p => pyGet p "mem_voltage" naV)

def fs_vram_used (e : Env) : Option Val :=
  some (match e.vram_usage with | none => naV | some d => pyGet d "vram_used" naV)

def fs_vram_total (e : Env) : Option Val :=
  some (match e.vram_usage with | none => naV | some d => pyGet d "vram_total" naV)

def fs_vram_type (e : Env) : Option Val :=
  some (match e.vram_info with
    | none => naV
    | some vd =>
      if pyTruthy (Val.dictV vd) then
        match e.wrapper_enum with
        | some enumvals =>
          match enumLookup enumvals (pyGet vd "vram_type" naV) with
          | some s => Val.str (s.replace "AMDSMI_VRAM_TYPE_" "")
          | none => naV
        | none => pyGet vd "vram_type" naV
      else naV)

def fs_vram_vendor (e : Env) : Option Val :=
  some (match e.vram_info with
    | none => naV
    | some vd => if pyTruthy (Val.dictV vd) then e.vram_vendor.getD naV else naV)

def fs_vram_bit_width (e : Env) : Option Val :=
  some (match e.vram_info with
    | none => naV
    | some vd => if pyTruthy (Val.dictV vd) then pyGet vd "vram_bit_width" naV else naV)

def fs_fan_speed_pct (e : Env) : Option Val := some (e.fan_speed.getD naV)

def fs_fan_speed_rpm (e : Env) : Option Val :=
  some (match e.fan_speed with | none => naV | some _ => e.fan_rpms.getD naV)

def fs_fan_max_rpm (e : Env) : Option Val := some (e.fan_speed_max.getD naV)

def fs_ecc_enabled (e : Env) : Option Val :=
  some (match e.ecc_enabled with
    | none => naV
    | some v => if isNA v then naV else Val.boolV (pyTruthy v))

def fs_single_ecc (e : Env) : Option Val :=
  some (match e.total_ecc_count with | none => naV | some d => pyGet d "correctable_count" naV)

def fs_double_ecc (e : Env) : Option Val :=
  some (match e.total_ecc_count with | none => naV | some d => pyGet d "uncorrectable_count" naV)

def fs_bad_pages (e : Env) : Option Val :=
  some (match e.bad_page_info with
    | none => naV
    | some v => match v with | .listV l => Val.num l.length | _ => naV)

def fs_pcie_width (e : Env) : Option Val :=
  some (match e.pcie_info with
    | none => naV
    | some p =>
      if hasKey p "pcie_metric" then
        match (dget? p "pcie_metric").getD Val.noneV with
        | .dictV m => pyGet m "pcie_width" naV
        | _ => naV
      else naV)

def fs_pcie_speed (e : Env) : Option Val :=
  some (match e.pcie_info with
    | none => naV
    | some p =>
      if hasKey p "pcie_metric" then
        match (dget? p "pcie_metric").getD Val.noneV with
        | .dictV m => pyGet m "pcie_speed" naV
        | _ => naV
      else naV)

def fs_pcie_replay_count (e : Env) : Option Val :=
  some (match e.pcie_info with
    | none => naV
    | some p =>
      if hasKey p "pcie_metric" then
        match (dget? p "pcie_metric").getD Val.noneV with
        | .dictV m => pyGet m "pcie_replay_count" naV
        | _ => naV
      else naV)

/-- The static PCIe fields are reached only when the metric part did not
raise (no `pcie_metric` key, or a dict one). -/
def fs_pcie_static (key : String) (e : Env) : Option Val :=
  some (match e.pcie_info with
    | none => naV
    | some p =>
      if hasKey p "pcie_metric" && !(isDictVal ((dget? p "pcie_metric").getD Val.noneV)) then naV
      else if hasKey p "pcie_static" then
        match (dget? p "pcie_static").getD Val.noneV with
        | .dictV s => pyGet s key naV
        | _ => naV
      else naV)

def fs_pcie_tx (e : Env) : Option Val :=
  some (match e.pci_throughput with
    | none => naV
    | some t => match t with | .dictV d => pyGet d "sent" naV | _ => naV)

def fs_pcie_rx (e : Env) : Option Val :=
  some (match e.pci_throughput with
    | none => naV
    | some t => match t with | .dictV d => pyGet d "received" naV | _ => naV)

def fs_xgmi_info (e : Env) : Option Val :=
  some (match e.xgmi_info with
    | none => naV
    | some x => if pyTruthy (Val.dictV x) then Val.dictV x else naV)

def fs_numa_node (e : Env) : Option Val := some (e.numa_node.getD naV)

def fs_throttle_status (e : Env) : Option Val :=
  some (match e.violation_status with
    | none => naV
    | some v =>
      if pyTruthy (Val.dictV v) then
        let throttle_types :=
          (if pyTruthy (pyGet v "active_ppt_pwr" (Val.boolV false)) then ["Power"] else []) ++
          (if pyTruthy (pyGet v "active_socket_thrm" (Val.boolV false)) then ["Thermal"] else []) ++
          (if pyTruthy (pyGet v "active_prochot_thrm" (Val.boolV false)) then ["Prochot"] else [])
        if !throttle_types.isEmpty then Val.str (String.intercalate ", " throttle_types)
        else Val.str "None"
      else naV)

def fs_processes (e : Env) : Option Val :=
  some (match e.process_list with
    | none => Val.listV []
    | some v => if pyTruthy v then v else Val.listV [])

/-- The per-field functional view of the collector: which value each record
field holds, as a function of the field's own try-block calls alone. -/
def fieldSpec (k : String) (e : Env) : Option Val :=
  match k with
  | "product_name" => fs_product_name e
  | "vendor_name" => fs_vendor_name e
  | "device_id" => fs_device_id e
  | "compute_units" => fs_compute_units e
  | "gfx_version" => fs_gfx_version e
  | "manufacturer" => fs_manufacturer e
  | "serial" => fs_serial e
  | "uuid" => fs_uuid e
  | "bdf" => fs_bdf e
  | "driver_version" => fs_driver_version e
  | "driver_date" => fs_driver_date e
  | "vbios_version" => fs_vbios_version e
  | "vbios_date" => fs_vbios_date e
  | "firmware_info" => fs_firmware_info e
  | "edge_temp" => fs_edge_temp e
  | "junction_temp" => fs_junction_temp e
  | "mem_temp" => fs_mem_temp e
  | "critical_temp" => fs_critical_temp e
  | "gpu_util" => fs_gpu_util e
  | "mem_util" => fs_mem_util e
  | "mm_util" => fs_mm_util e
  | "encoder_util" => fs_encoder_util e
  | "decoder_util" => fs_decoder_util e
  | "gpu_clock" => fs_gpu_clock e
  | "gpu_clock_min" => fs_gpu_clock_min e
  | "gpu_clock_max" => fs_gpu_clock_max e
  | "mem_clock" => fs_mem_clock e
  | "mem_clock_min" => fs_mem_clock_min e
  | "mem_clock_max" => fs_mem_clock_max e
  | "gpu_available_freqs" => fs_gpu_available_freqs e
  | "perf_level" => fs_perf_level e
  | "power" => fs_power e
  | "power_avg" => fs_power_avg e
  | "power_cap" => fs_power_cap e
  | "power_cap_default" => fs_power_cap_default e
  | "power_cap_min" => fs_power_cap_min e
  | "power_cap_max" => fs_power_cap_max e
  | "energy_counter" => fs_energy_counter e
  | "voltage_gfx" => fs_voltage_gfx e
  | "voltage_soc" => fs_voltage_soc e
  | "voltage_mem" => fs_voltage_mem e
  | "vram_used" => fs_vram_used e
  | "vram_total" => fs_vram_total e
  | "vram_type" => fs_vram_type e
  | "vram_vendor" => fs_vram_vendor e
  | "vram_bit_width" => fs_vram_bit_width e
  | "fan_speed_pct" => fs_fan_speed_pct e
  | "fan_speed_rpm" => fs_fan_speed_rpm e
  | "fan_max_rpm" => fs_fan_max_rpm e
  | "ecc_enabled" => fs_ecc_enabled e
  | "single_ecc" => fs_single_ecc e
  | "double_ecc" => fs_double_ecc e
  | "bad_pages" => fs_bad_pages e
  | "pcie_width" => fs_pcie_width e
  | "pcie_speed" => fs_pcie_speed e
  | "pcie_max_width" => fs_pcie_static "max_pcie_width" e
  | "pcie_max_speed" => fs_pcie_static "max_pcie_speed" e
  | "pcie_replay_count" => fs_pcie_replay_count e
  | "pcie_tx" => fs_pcie_tx e
  | "pcie_rx" => fs_pcie_rx e
  | "xgmi_info" => fs_xgmi_info e
  | "numa_node" => fs_numa_node e
  | "throttle_status" => fs_throttle_status e
  | "processes" => fs_processes e
  | _ => none

/-- Every key the collector can ever write. -/
def recordKeys : List String :=
  ["product_name", "vendor_name", "device_id", "compute_units", "gfx_version",
   "manufacturer", "serial", "uuid", "bdf", "driver_version", "driver_date",
   "vbios_version", "vbios_date", "firmware_info", "edge_temp",
   "junction_temp", "mem_temp", "critical_temp", "gpu_util", "mem_util",
   "mm_util", "encoder_util", "decoder_util", "gpu_clock", "gpu_clock_min",
   "gpu_clock_max", "mem_clock", "mem_clock_min", "mem_clock_max",
   "gpu_available_freqs", "perf_level", "power", "power_avg", "power_cap",
   "power_cap_default", "power_cap_min", "power_cap_max", "energy_counter",
   "voltage_gfx", "voltage_soc", "voltage_mem", "vram_used", "vram_total",
   "vram_type", "vram_vendor", "vram_bit_width", "fan_speed_pct",
   "fan_speed_rpm", "fan_max_rpm", "ecc_enabled", "single_ecc", "double_ecc",
   "bad_pages", "pcie_width", "pcie_speed", "pcie_max_width",
   "pcie_max_speed", "pcie_replay_count", "pcie_tx", "pcie_rx", "xgmi_info",
   "numa_node", "throttle_status", "processes"]

/-- The environments used by the counterexamples: the all-success behavior
with exactly one call changed. -/
def envJunctionFail : Env := { allOk with temp_junction_current := none }

def envAsicFail : Env := { allOk with asic_info := none }

def envVramZero : Env :=
  { allOk with vram_usage := some [("vram_used", Val.num 0), ("vram_total", Val.num 0)] }

/-- The field names the reporter reads from the record: the title line
(`product_name`, `bdf`), the section template (`sectionKeys`), and the
process table (`processes`).  `vendor_name` is collected but never read. -/
def templateReadKeys : List String :=
  ["product_name", "bdf"] ++ sectionKeys ++ ["processes"]

/-- Modelled from the spec sentence of C6: the smallest unit-ladder index
`k` with `b / 1024 ^ k < 1024`, or the last index 4 when there is none. -/
def ladderIndexSpec (b : ℚ) : ℕ :=
  if b < 1024 then 0
  else if b < 1024 ^ 2 then 1
  else if b < 1024 ^ 3 then 2
  else if b < 1024 ^ 4 then 3
  else 4

/-! ## Frame lemmas: each probe step writes only its own fields -/

theorem dget?_dset_self {d : Dict} {k : String} {v : Val} : dget? (dset d k v) k = some v := by
  simp [dget?, dset]

theorem dget?_dset_ne {d : Dict} {k k' : String} {v : Val} (h : k' ≠ k) :
    dget? (dset d k' v) k = dget? d k := by
  simp [dget?, dset, h]

theorem pcieStaticPart_frame {p : Dict} {i : Dict} {k : String}
    (h3 : "pcie_max_width" ≠ k) (h4 : "pcie_max_speed" ≠ k) :
    dget? (pcieStaticPart p i) k = dget? i k := by
  simp only [pcieStaticPart]
  repeat' split
  all_goals simp only [dget?_dset_ne h3, dget?_dset_ne h4]

/-- `asicStep` leaves every other field untouched. -/
theorem asicStep_frame {e : Env} {i : Dict} {k : String}
    (h1 : "product_name" ≠ k) (h2 : "vendor_name" ≠ k) (h3 : "device_id" ≠ k) (h4 : "compute_units" ≠ k) (h5 : "gfx_version" ≠ k) (h6 : "manufacturer" ≠ k) (h7 : "serial" ≠ k) :
    dget? (asicStep e i) k = dget? i k := by
  simp only [asicStep]
  repeat' split
  all_goals simp only [dget?_dset_ne h1, dget?_dset_ne h2, dget?_dset_ne h3, dget?_dset_ne h4, dget?_dset_ne h5, dget?_dset_ne h6, dget?_dset_ne h7]

/-- `uuidStep` leaves every other field untouched. -/
theorem uuidStep_frame {e : Env} {i : Dict} {k : String}
    (h1 : "uuid" ≠ k) :
    dget? (uuidStep e i) k = dget? i k := by
  simp only [uuidStep]
  repeat' split
  all_goals simp only [dget?_dset_ne h1]

/-- `bdfStep` leaves every other field untouched. -/
theorem bdfStep_frame {e : Env} {i : Dict} {k : String}
    (h1 : "bdf" ≠ k) :
    dget? (bdfStep e i) k = dget? i k := by
  simp only [bdfStep]
  repeat' split
  all_goals simp only [dget?_dset_ne h1]

/-- `driverStep` leaves every other field untouched. -/
theorem driverStep_frame {e : Env} {i : Dict} {k : String}
    (h1 : "driver_version" ≠ k) (h2 : "driver_date" ≠ k) :
    dget? (driverStep e i) k = dget? i k := by
  simp only [driverStep]
  repeat' split
  all_goals simp only [dget?_dset_ne h1, dget?_dset_ne h2]

/-- `vbiosStep` leaves every other field untouched. -/
theorem vbiosStep_frame {e : Env} {i : Dict} {k : String}
    (h1 : "vbios_version" ≠ k) (h2 : "vbios_date" ≠ k) :
    dget? (vbiosStep e i) k = dget? i k := by
  simp only [vbiosStep]
  repeat' split
  all_goals simp only [dget?_dset_ne h1, dget?_dset_ne h2]

/-- `fwStep` leaves every other field untouched. -/
theorem fwStep_frame {e : Env} {i : Dict} {k : String}
    (h1 : "firmware_info" ≠ k) :
    dget? (fwStep e i) k = dget? i k := by
  simp only [fwStep]
  repeat' split
  all_goals simp only [dget?_dset_ne h1]

/-- `tempStep` leaves every other field untouched. -/
theorem tempStep_frame {e : Env} {i : Dict} {k : String}
    (h1 : "edge_temp" ≠ k) (h2 : "junction_temp" ≠ k) (h3 : "mem_temp" ≠ k) :
    dget? (tempStep e i) k = dget? i k := by
  simp only [tempStep]
  repeat' split
  all_goals simp only [dget?_dset_ne h1, dget?_dset_ne h2, dget?_dset_ne h3]

/-- `criticalStep` leaves every other field untouched. -/
theorem criticalStep_frame {e : Env} {i : Dict} {k : String}
    (h1 : "critical_temp" ≠ k) :
    dget? (criticalStep e i) k = dget? i k := by
  simp only [criticalStep]
  repeat' split
  all_goals simp only [dget?_dset_ne h1]

/-- `activityStep` leaves every other field untouched. -/
theorem activityStep_frame {e : Env} {i : Dict} {k : String}
    (h1 : "gpu_util" ≠ k) (h2 : "mem_util" ≠ k) (h3 : "mm_util" ≠ k) :
    dget? (activityStep e i) k = dget? i k := by
  simp only [activityStep]
  repeat' split
  all_goals simp only [dget?_dset_ne h1, dget?_dset_ne h2, dget?_dset_ne h3]

/-- `metricsStep` leaves every other field untouched. -/
theorem metricsStep_frame {e : Env} {i : Dict} {k : String}
    (h1 : "encoder_util" ≠ k) (h2 : "decoder_util" ≠ k) :
    dget? (metricsStep e i) k = dget? i k := by
  simp only [metricsStep]
  repeat' split
  all_goals simp only [dget?_dset_ne h1, dget?_dset_ne h2]

/-- `clocksInit` leaves every other field untouched. -/
theorem clocksInit_frame {e : Env} {i : Dict} {k : String}
    (h1 : "gpu_clock" ≠ k) (h2 : "gpu_clock_min" ≠ k) (h3 : "gpu_clock_max" ≠ k) (h4 : "mem_clock" ≠ k) (h5 : "mem_clock_min" ≠ k) (h6 : "mem_clock_max" ≠ k) :
    dget? (clocksInit e i) k = dget? i k := by
  simp only [clocksInit]
  simp only [dget?_dset_ne h1, dget?_dset_ne h2, dget?_dset_ne h3, dget?_dset_ne h4, dget?_dset_ne h5, dget?_dset_ne h6]

/-- `clockGfxStep` leaves every other field untouched. -/
theorem clockGfxStep_frame {e : Env} {i : Dict} {k : String}
    (h1 : "gpu_clock" ≠ k) (h2 : "gpu_clock_min" ≠ k) (h3 : "gpu_clock_max" ≠ k) :
    dget? (clockGfxStep e i) k = dget? i k := by
  simp only [clockGfxStep]
  repeat' split
  all_goals simp only [dget?_dset_ne h1, dget?_dset_ne h2, dget?_dset_ne h3]

/-- `clockMemStep` leaves every other field untouched. -/
theorem clockMemStep_frame {e : Env} {i : Dict} {k : String}
    (h1 : "mem_clock" ≠ k) (h2 : "mem_clock_min" ≠ k) (h3 : "mem_clock_max" ≠ k) :
    dget? (clockMemStep e i) k = dget? i k := by
  simp only [clockMemStep]
  repeat' split
  all_goals simp only [dget?_dset_ne h1, dget?_dset_ne h2, dget?_dset_ne h3]

/-- `clkFreqStep` leaves every other field untouched. -/
theorem clkFreqStep_frame {e : Env} {i : Dict} {k : String}
    (h1 : "gpu_available_freqs" ≠ k) :
    dget? (clkFreqStep e i) k = dget? i k := by
  simp only [clkFreqStep]
  repeat' split
  all_goals simp only [dget?_dset_ne h1]

/-- `perfStep` leaves every other field untouched. -/
theorem perfStep_frame {e : Env} {i : Dict} {k : String}
    (h1 : "perf_level" ≠ k) :
    dget? (perfStep e i) k = dget? i k := by
  simp only [perfStep]
  repeat' split
  all_goals simp only [dget?_dset_ne h1]

/-- `powerInit` leaves every other field untouched. -/
theorem powerInit_frame {e : Env} {i : Dict} {k : String}
    (h1 : "power" ≠ k) (h2 : "power_avg" ≠ k) (h3 : "power_cap" ≠ k) (h4 : "power_cap_default" ≠ k) (h5 : "power_cap_min" ≠ k) (h6 : "power_cap_max" ≠ k) :
    dget? (powerInit e i) k = dget? i k := by
  simp only [powerInit]
  simp only [dget?_dset_ne h1, dget?_dset_ne h2, dget?_dset_ne h3, dget?_dset_ne h4, dget?_dset_ne h5, dget?_dset_ne h6]

/-- `powerStep` leaves every other field untouched. -/
theorem powerStep_frame {e : Env} {i : Dict} {k : String}
    (h1 : "power" ≠ k) (h2 : "power_avg" ≠ k) (h3 : "power_cap" ≠ k) :
    dget? (powerStep e i) k = dget? i k := by
  simp only [powerStep]
  repeat' split
  all_goals simp only [dget?_dset_ne h1, dget?_dset_ne h2, dget?_dset_ne h3]

/-- `powerCapStep` leaves every other field untouched. -/
theorem powerCapStep_frame {e : Env} {i : Dict} {k : String}
    (h1 : "power_cap" ≠ k) (h2 : "power_cap_default" ≠ k) (h3 : "power_cap_min" ≠ k) (h4 : "power_cap_max" ≠ k) :
    dget? (powerCapStep e i) k = dget? i k := by
  simp only [powerCapStep]
  repeat' split
  all_goals simp only [dget?_dset_ne h1, dget?_dset_ne h2, dget?_dset_ne h3, dget?_dset_ne h4]

/-- `energyStep` leaves every other field untouched. -/
theorem energyStep_frame {e : Env} {i : Dict} {k : String}
    (h1 : "energy_counter" ≠ k) :
    dget? (energyStep e i) k = dget? i k := by
  simp only [energyStep]
  repeat' split
  all_goals simp only [dget?_dset_ne h1]

/-- `voltageStep` leaves every other field untouched. -/
theorem voltageStep_frame {e : Env} {i : Dict} {k : String}
    (h1 : "voltage_gfx" ≠ k) (h2 : "voltage_soc" ≠ k) (h3 : "voltage_mem" ≠ k) :
    dget? (voltageStep e i) k = dget? i k := by
  simp only [voltageStep]
  repeat' split
  all_goals simp only [dget?_dset_ne h1, dget?_dset_ne h2, dget?_dset_ne h3]

/-- `vramUsageStep` leaves every other field untouched. -/
theorem vramUsageStep_frame {e : Env} {i : Dict} {k : String}
    (h1 : "vram_used" ≠ k) (h2 : "vram_total" ≠ k) :
    dget? (vramUsageStep e i) k = dget? i k := by
  simp only [vramUsageStep]
  repeat' split
  all_goals simp only [dget?_dset_ne h1, dget?_dset_ne h2]

/-- `vramInfoStep` leaves every other field untouched. -/
theorem vramInfoStep_frame {e : Env} {i : Dict} {k : String}
    (h1 : "vram_type" ≠ k) (h2 : "vram_vendor" ≠ k) (h3 : "vram_bit_width" ≠ k) :
    dget? (vramInfoStep e i) k = dget? i k := by
  simp only [vramInfoStep]
  repeat' split
  all_goals simp only [dget?_dset_ne h1, dget?_dset_ne h2, dget?_dset_ne h3]

/-- `fanStep` leaves every other field untouched. -/
theorem fanStep_frame {e : Env} {i : Dict} {k : String}
    (h1 : "fan_speed_pct" ≠ k) (h2 : "fan_speed_rpm" ≠ k) (h3 : "fan_max_rpm" ≠ k) :
    dget? (fanStep e i) k = dget? i k := by
  simp only [fanStep]
  repeat' split
  all_goals simp only [dget?_dset_ne h1, dget?_dset_ne h2, dget?_dset_ne h3]

/-- `fanMaxStep` leaves every other field untouched. -/
theorem fanMaxStep_frame {e : Env} {i : Dict} {k : String}
    (h1 : "fan_max_rpm" ≠ k) :
    dget? (fanMaxStep e i) k = dget? i k := by
  simp only [fanMaxStep]
  repeat' split
  all_goals simp only [dget?_dset_ne h1]

/-- `eccEnabledStep` leaves every other field untouched. -/
theorem eccEnabledStep_frame {e : Env} {i : Dict} {k : String}
    (h1 : "ecc_enabled" ≠ k) (h2 : "single_ecc" ≠ k) (h3 : "double_ecc" ≠ k) :
    dget? (eccEnabledStep e i) k = dget? i k := by
  simp only [eccEnabledStep]
  repeat' split
  all_goals simp only [dget?_dset_ne h1, dget?_dset_ne h2, dget?_dset_ne h3]

/-- `eccCountStep` leaves every other field untouched. -/
theorem eccCountStep_frame {e : Env} {i : Dict} {k : String}
    (h1 : "single_ecc" ≠ k) (h2 : "double_ecc" ≠ k) :
    dget? (eccCountStep e i) k = dget? i k := by
  simp only [eccCountStep]
  repeat' split
  all_goals simp only [dget?_dset_ne h1, dget?_dset_ne h2]

/-- `badPagesStep` leaves every other field untouched. -/
theorem badPagesStep_frame {e : Env} {i : Dict} {k : String}
    (h1 : "bad_pages" ≠ k) :
    dget? (badPagesStep e i) k = dget? i k := by
  simp only [badPagesStep]
  repeat' split
  all_goals simp only [dget?_dset_ne h1]

/-- `throughputStep` leaves every other field untouched. -/
theorem throughputStep_frame {e : Env} {i : Dict} {k : String}
    (h1 : "pcie_tx" ≠ k) (h2 : "pcie_rx" ≠ k) :
    dget? (throughputStep e i) k = dget? i k := by
  simp only [throughputStep]
  repeat' split
  all_goals simp only [dget?_dset_ne h1, dget?_dset_ne h2]

/-- `xgmiStep` leaves every other field untouched. -/
theorem xgmiStep_frame {e : Env} {i : Dict} {k : String}
    (h1 : "xgmi_info" ≠ k) :
    dget? (xgmiStep e i) k = dget? i k := by
  simp only [xgmiStep]
  repeat' split
  all_goals simp only [dget?_dset_ne h1]

/-- `numaStep` leaves every other field untouched. -/
theorem numaStep_frame {e : Env} {i : Dict} {k : String}
    (h1 : "numa_node" ≠ k) :
    dget? (numaStep e i) k = dget? i k := by
  simp only [numaStep]
  repeat' split
  all_goals simp only [dget?_dset_ne h1]

/-- `violationStep` leaves every other field untouched. -/
theorem violationStep_frame {e : Env} {i : Dict} {k : String}
    (h1 : "throttle_status" ≠ k) :
    dget? (violationStep e i) k = dget? i k := by
  simp only [violationStep]
  repeat' split
  all_goals simp only [dget?_dset_ne h1]

/-- `processStep` leaves every other field untouched. -/
theorem processStep_frame {e : Env} {i : Dict} {k : String}
    (h1 : "processes" ≠ k) :
    dget? (processStep e i) k = dget? i k := by
  simp only [processStep]
  repeat' split
  all_goals simp only [dget?_dset_ne h1]

/-- `pcieStep` leaves every other field untouched. -/
theorem pcieStep_frame {e : Env} {i : Dict} {k : String}
    (h1 : "pcie_width" ≠ k) (h2 : "pcie_speed" ≠ k) (h3 : "pcie_max_width" ≠ k)
    (h4 : "pcie_max_speed" ≠ k) (h5 : "pcie_replay_count" ≠ k) :
    dget? (pcieStep e i) k = dget? i k := by
  simp only [pcieStep]
  repeat' split
  all_goals simp only [pcieStaticPart_frame h3 h4, dget?_dset_ne h1, dget?_dset_ne h2,
    dget?_dset_ne h3, dget?_dset_ne h4, dget?_dset_ne h5]

/-! ## Per-field lookup lemmas and the collector correctness theorem -/

theorem look_product_name (e : Env) :
    dget? (get_gpu_info e) "product_name" = fs_product_name e := by
  simp only [get_gpu_info]
  rw [processStep_frame (by decide),
      violationStep_frame (by decide),
      numaStep_frame (by decide),
      xgmiStep_frame (by decide),
      throughputStep_frame (by decide) (by decide),
      pcieStep_frame (by decide) (by decide) (by decide) (by decide) (by decide),
      badPagesStep_frame (by decide),
      eccCountStep_frame (by decide) (by decide),
      eccEnabledStep_frame (by decide) (by decide) (by decide),
      fanMaxStep_frame (by decide),
      fanStep_frame (by decide) (by decide) (by decide),
      vramInfoStep_frame (by decide) (by decide) (by decide),
      vramUsageStep_frame (by decide) (by decide),
      voltageStep_frame (by decide) (by decide) (by decide),
      energyStep_frame (by decide),
      powerCapStep_frame (by decide) (by decide) (by decide) (by decide),
      powerStep_frame (by decide) (by decide) (by decide),
      powerInit_frame (by decide) (by decide) (by decide) (by decide) (by decide) (by decide),
      perfStep_frame (by decide),
      clkFreqStep_frame (by decide),
      clockMemStep_frame (by decide) (by decide) (by decide),
      clockGfxStep_frame (by decide) (by decide) (by decide),
      clocksInit_frame (by decide) (by decide) (by decide) (by decide) (by decide) (by decide),
      metricsStep_frame (by decide) (by decide),
      activityStep_frame (by decide) (by decide) (by decide),
      criticalStep_frame (by decide),
      tempStep_frame (by decide) (by decide) (by decide),
      fwStep_frame (by decide),
      vbiosStep_frame (by decide) (by decide),
      driverStep_frame (by decide) (by decide),
      bdfStep_frame (by decide),
      uuidStep_frame (by decide)]
  simp only [asicStep, fs_product_name]
  cases e.asic_info with
  | none => simp [dget?, dset]
  | some a =>
    by_cases hm : isNA (pyGet a "market_name" naV) = true
    · cases e.board_info <;> simp [dget?, dset, hm]
    · simp [dget?, dset, hm]

theorem look_vendor_name (e : Env) :
    dget? (get_gpu_info e) "vendor_name" = fs_vendor_name e := by
  simp only [get_gpu_info]
  rw [processStep_frame (by decide),
      violationStep_frame (by decide),
      numaStep_frame (by decide),
      xgmiStep_frame (by decide),
      throughputStep_frame (by decide) (by decide),
      pcieStep_frame (by decide) (by decide) (by decide) (by decide) (by decide),
      badPagesStep_frame (by decide),
      eccCountStep_frame (by decide) (by decide),
      eccEnabledStep_frame (by decide) (by decide) (by decide),
      fanMaxStep_frame (by decide),
      fanStep_frame (by decide) (by decide) (by decide),
      vramInfoStep_frame (by decide) (by decide) (by decide),
      vramUsageStep_frame (by decide) (by decide),
      voltageStep_frame (by decide) (by decide) (by decide),
      energyStep_frame (by decide),
      powerCapStep_frame (by decide) (by decide) (by decide) (by decide),
      powerStep_frame (by decide) (by decide) (by decide),
      powerInit_frame (by decide) (by decide) (by decide) (by decide) (by decide) (by decide),
      perfStep_frame (by decide),
      clkFreqStep_frame (by decide),
      clockMemStep_frame (by decide) (by decide) (by decide),
      clockGfxStep_frame (by decide) (by decide) (by decide),
      clocksInit_frame (by decide) (by decide) (by decide) (by decide) (by decide) (by decide),
      metricsStep_frame (by decide) (by decide),
      activityStep_frame (by decide) (by decide) (by decide),
      criticalStep_frame (by decide),
      tempStep_frame (by decide) (by decide) (by decide),
      fwStep_frame (by decide),
      vbiosStep_frame (by decide) (by decide),
      driverStep_frame (by decide) (by decide),
      bdfStep_frame (by decide),
      uuidStep_frame (by decide)]
  simp only [asicStep, fs_vendor_name]
  cases e.asic_info with
  | none => simp [dget?, dset]
  | some a =>
    by_cases hm : isNA (pyGet a "market_name" naV) = true
    · cases e.board_info <;> simp [dget?, dset, hm]
    · simp [dget?, dset, hm]

theorem look_device_id (e : Env) :
    dget? (get_gpu_info e) "device_id" = fs_device_id e := by
  simp only [get_gpu_info]
  rw [processStep_frame (by decide),
      violationStep_frame (by decide),
      numaStep_frame (by decide),
      xgmiStep_frame (by decide),
      throughputStep_frame (by decide) (by decide),
      pcieStep_frame (by decide) (by decide) (by decide) (by decide) (by decide),
      badPagesStep_frame (by decide),
      eccCountStep_frame (by decide) (by decide),
      eccEnabledStep_frame (by decide) (by decide) (by decide),
      fanMaxStep_frame (by decide),
      fanStep_frame (by decide) (by decide) (by decide),
      vramInfoStep_frame (by decide) (by decide) (by decide),
      vramUsageStep_frame (by decide) (by decide),
      voltageStep_frame (by decide) (by decide) (by decide),
      energyStep_frame (by decide),
      powerCapStep_frame (by decide) (by decide) (by decide) (by decide),
      powerStep_frame (by decide) (by decide) (by decide),
      powerInit_frame (by decide) (by decide) (by decide) (by decide) (by decide) (by decide),
      perfStep_frame (by decide),
      clkFreqStep_frame (by decide),
      clockMemStep_frame (by decide) (by decide) (by decide),
      clockGfxStep_frame (by decide) (by decide) (by decide),
      clocksInit_frame (by decide) (by decide) (by decide) (by decide) (by decide) (by decide),
      metricsStep_frame (by decide) (by decide),
      activityStep_frame (by decide) (by decide) (by decide),
      criticalStep_frame (by decide),
      tempStep_frame (by decide) (by decide) (by decide),
      fwStep_frame (by decide),
      vbiosStep_frame (by decide) (by decide),
      driverStep_frame (by decide) (by decide),
      bdfStep_frame (by decide),
      uuidStep_frame (by decide)]
  simp only [asicStep, fs_device_id]
  cases e.asic_info with
  | none => simp [dget?, dset]
  | some a =>
    by_cases hm : isNA (pyGet a "market_name" naV) = true
    · cases e.board_info <;> simp [dget?, dset, hm]
    · simp [dget?, dset, hm]

theorem look_compute_units (e : Env) :
    dget? (get_gpu_info e) "compute_units" = fs_compute_units e := by
  simp only [get_gpu_info]
  rw [processStep_frame (by decide),
      violationStep_frame (by decide),
      numaStep_frame (by decide),
      xgmiStep_frame (by decide),
      throughputStep_frame (by decide) (by decide),
      pcieStep_frame (by decide) (by decide) (by decide) (by decide) (by decide),
      badPagesStep_frame (by decide),
      eccCountStep_frame (by decide) (by decide),
      eccEnabledStep_frame (by decide) (by decide) (by decide),
      fanMaxStep_frame (by decide),
      fanStep_frame (by decide) (by decide) (by decide),
      vramInfoStep_frame (by decide) (by decide) (by decide),
      vramUsageStep_frame (by decide) (by decide),
      voltageStep_frame (by decide) (by decide) (by decide),
      energyStep_frame (by decide),
      powerCapStep_frame (by decide) (by decide) (by decide) (by decide),
      powerStep_frame (by decide) (by decide) (by decide),
      powerInit_frame (by decide) (by decide) (by decide) (by decide) (by decide) (by decide),
      perfStep_frame (by decide),
      clkFreqStep_frame (by decide),
      clockMemStep_frame (by decide) (by decide) (by decide),
      clockGfxStep_frame (by decide) (by decide) (by decide),
      clocksInit_frame (by decide) (by decide) (by decide) (by decide) (by decide) (by decide),
      metricsStep_frame (by decide) (by decide),
      activityStep_frame (by decide) (by decide) (by decide),
      criticalStep_frame (by decide),
      tempStep_frame (by decide) (by decide) (by decide),
      fwStep_frame (by decide),
      vbiosStep_frame (by decide) (by decide),
      driverStep_frame (by decide) (by decide),
      bdfStep_frame (by decide),
      uuidStep_frame (by decide)]
  simp only [asicStep, fs_compute_units]
  cases e.asic_info with
  | none => simp [dget?, dset]
  | some a =>
    by_cases hm : isNA (pyGet a "market_name" naV) = true
    · cases e.board_info <;> simp [dget?, dset, hm]
    · simp [dget?, dset, hm]

theorem look_gfx_version (e : Env) :
    dget? (get_gpu_info e) "gfx_version" = fs_gfx_version e := by
  simp only [get_gpu_info]
  rw [processStep_frame (by decide),
      violationStep_frame (by decide),
      numaStep_frame (by decide),
      xgmiStep_frame (by decide),
      throughputStep_frame (by decide) (by decide),
      pcieStep_frame (by decide) (by decide) (by decide) (by decide) (by decide),
      badPagesStep_frame (by decide),
      eccCountStep_frame (by decide) (by decide),
      eccEnabledStep_frame (by decide) (by decide) (by decide),
      fanMaxStep_frame (by decide),
      fanStep_frame (by decide) (by decide) (by decide),
      vramInfoStep_frame (by decide) (by decide) (by decide),
      vramUsageStep_frame (by decide) (by decide),
      voltageStep_frame (by decide) (by decide) (by decide),
      energyStep_frame (by decide),
      powerCapStep_frame (by decide) (by decide) (by decide) (by decide),
      powerStep_frame (by decide) (by decide) (by decide),
      powerInit_frame (by decide) (by decide) (by decide) (by decide) (by decide) (by decide),
      perfStep_frame (by decide),
      clkFreqStep_frame (by decide),
      clockMemStep_frame (by decide) (by decide) (by decide),
      clockGfxStep_frame (by decide) (by decide) (by decide),
      clocksInit_frame (by decide) (by decide) (by decide) (by decide) (by decide) (by decide),
      metricsStep_frame (by decide) (by decide),
      activityStep_frame (by decide) (by decide) (by decide),
      criticalStep_frame (by decide),
      tempStep_frame (by decide) (by decide) (by decide),
      fwStep_frame (by decide),
      vbiosStep_frame (by decide) (by decide),
      driverStep_frame (by decide) (by decide),
      bdfStep_frame (by decide),
      uuidStep_frame (by decide)]
  simp only [asicStep, fs_gfx_version]
  cases e.asic_info with
  | none => simp [dget?, dset]
  | some a =>
    by_cases hm : isNA (pyGet a "market_name" naV) = true
    · cases e.board_info <;> simp [dget?, dset, hm]
    · simp [dget?, dset, hm]

theorem look_manufacturer (e : Env) :
    dget? (get_gpu_info e) "manufacturer" = fs_manufacturer e := by
  simp only [get_gpu_info]
  rw [processStep_frame (by decide),
      violationStep_frame (by decide),
      numaStep_frame (by decide),
      xgmiStep_frame (by decide),
      throughputStep_frame (by decide) (by decide),
      pcieStep_frame (by decide) (by decide) (by decide) (by decide) (by decide),
      badPagesStep_frame (by decide),
      eccCountStep_frame (by decide) (by decide),
      eccEnabledStep_frame (by decide) (by decide) (by decide),
      fanMaxStep_frame (by decide),
      fanStep_frame (by decide) (by decide) (by decide),
      vramInfoStep_frame (by decide) (by decide) (by decide),
      vramUsageStep_frame (by decide) (by decide),
      voltageStep_frame (by decide) (by decide) (by decide),
      energyStep_frame (by decide),
      powerCapStep_frame (by decide) (by decide) (by decide) (by decide),
      powerStep_frame (by decide) (by decide) (by decide),
      powerInit_frame (by decide) (by decide) (by decide) (by decide) (by decide) (by decide),
      perfStep_frame (by decide),
      clkFreqStep_frame (by decide),
      clockMemStep_frame (by decide) (by decide) (by decide),
      clockGfxStep_frame (by decide) (by decide) (by decide),
      clocksInit_frame (by decide) (by decide) (by decide) (by decide) (by decide) (by decide),
      metricsStep_frame (by decide) (by decide),
      activityStep_frame (by decide) (by decide) (by decide),
      criticalStep_frame (by decide),
      tempStep_frame (by decide) (by decide) (by decide),
      fwStep_frame (by decide),
      vbiosStep_frame (by decide) (by decide),
      driverStep_frame (by decide) (by decide),
      bdfStep_frame (by decide),
      uuidStep_frame (by decide)]
  simp only [asicStep, fs_manufacturer]
  cases e.asic_info with
  | none => simp [dget?, dset]
  | some a =>
    by_cases hm : isNA (pyGet a "market_name" naV) = true
    · cases e.board_info <;> simp [dget?, dset, hm]
    · simp [dget?, dset, hm]

theorem look_serial (e : Env) :
    dget? (get_gpu_info e) "serial" = fs_serial e := by
  simp only [get_gpu_info]
  rw [processStep_frame (by decide),
      violationStep_frame (by decide),
      numaStep_frame (by decide),
      xgmiStep_frame (by decide),
      throughputStep_frame (by decide) (by decide),
      pcieStep_frame (by decide) (by decide) (by decide) (by decide) (by decide),
      badPagesStep_frame (by decide),
      eccCountStep_frame (by decide) (by decide),
      eccEnabledStep_frame (by decide) (by decide) (by decide),
      fanMaxStep_frame (by decide),
      fanStep_frame (by decide) (by decide) (by decide),
      vramInfoStep_frame (by decide) (by decide) (by decide),
      vramUsageStep_frame (by decide) (by decide),
      voltageStep_frame (by decide) (by decide) (by decide),
      energyStep_frame (by decide),
      powerCapStep_frame (by decide) (by decide) (by decide) (by decide),
      powerStep_frame (by decide) (by decide) (by decide),
      powerInit_frame (by decide) (by decide) (by decide) (by decide) (by decide) (by decide),
      perfStep_frame (by decide),
      clkFreqStep_frame (by decide),
      clockMemStep_frame (by decide) (by decide) (by decide),
      clockGfxStep_frame (by decide) (by decide) (by decide),
      clocksInit_frame (by decide) (by decide) (by decide) (by decide) (by decide) (by decide),
      metricsStep_frame (by decide) (by decide),
      activityStep_frame (by decide) (by decide) (by decide),
      criticalStep_frame (by decide),
      tempStep_frame (by decide) (by decide) (by decide),
      fwStep_frame (by decide),
      vbiosStep_frame (by decide) (by decide),
      driverStep_frame (by decide) (by decide),
      bdfStep_frame (by decide),
      uuidStep_frame (by decide)]
  simp only [asicStep, fs_serial]
  cases e.asic_info with
  | none => simp [dget?, dset]
  | some a =>
    by_cases hm : isNA (pyGet a "market_name" naV) = true
    · cases e.board_info <;> simp [dget?, dset, hm]
    · simp [dget?, dset, hm]

theorem look_uuid (e : Env) :
    dget? (get_gpu_info e) "uuid" = fs_uuid e := by
  simp only [get_gpu_info]
  rw [processStep_frame (by decide),
      violationStep_frame (by decide),
      numaStep_frame (by decide),
      xgmiStep_frame (by decide),
      throughputStep_frame (by decide) (by decide),
      pcieStep_frame (by decide) (by decide) (by decide) (by decide) (by decide),
      badPagesStep_frame (by decide),
      eccCountStep_frame (by decide) (by decide),
      eccEnabledStep_frame (by decide) (by decide) (by decide),
      fanMaxStep_frame (by decide),
      fanStep_frame (by decide) (by decide) (by decide),
      vramInfoStep_frame (by decide) (by decide) (by decide),
      vramUsageStep_frame (by decide) (by decide),
      voltageStep_frame (by decide) (by decide) (by decide),
      energyStep_frame (by decide),
      powerCapStep_frame (by decide) (by decide) (by decide) (by decide),
      powerStep_frame (by decide) (by decide) (by decide),
      powerInit_frame (by decide) (by decide) (by decide) (by decide) (by decide) (by decide),
      perfStep_frame (by decide),
      clkFreqStep_frame (by decide),
      clockMemStep_frame (by decide) (by decide) (by decide),
      clockGfxStep_frame (by decide) (by decide) (by decide),
      clocksInit_frame (by decide) (by decide) (by decide) (by decide) (by decide) (by decide),
      metricsStep_frame (by decide) (by decide),
      activityStep_frame (by decide) (by decide) (by decide),
      criticalStep_frame (by decide),
      tempStep_frame (by decide) (by decide) (by decide),
      fwStep_frame (by decide),
      vbiosStep_frame (by decide) (by decide),
      driverStep_frame (by decide) (by decide),
      bdfStep_frame (by decide)]
  simp only [uuidStep, fs_uuid]
  cases e.device_uuid <;> simp [dget?, dset]

theorem look_bdf (e : Env) :
    dget? (get_gpu_info e) "bdf" = fs_bdf e := by
  simp only [get_gpu_info]
  rw [processStep_frame (by decide),
      violationStep_frame (by decide),
      numaStep_frame (by decide),
      xgmiStep_frame (by decide),
      throughputStep_frame (by decide) (by decide),
      pcieStep_frame (by decide) (by decide) (by decide) (by decide) (by decide),
      badPagesStep_frame (by decide),
      eccCountStep_frame (by decide) (by decide),
      eccEnabledStep_frame (by decide) (by decide) (by decide),
      fanMaxStep_frame (by decide),
      fanStep_frame (by decide) (by decide) (by decide),
      vramInfoStep_frame (by decide) (by decide) (by decide),
      vramUsageStep_frame (by decide) (by decide),
      voltageStep_frame (by decide) (by decide) (by decide),
      energyStep_frame (by decide),
      powerCapStep_frame (by decide) (by decide) (by decide) (by decide),
      powerStep_frame (by decide) (by decide) (by decide),
      powerInit_frame (by decide) (by decide) (by decide) (by decide) (by decide) (by decide),
      perfStep_frame (by decide),
      clkFreqStep_frame (by decide),
      clockMemStep_frame (by decide) (by decide) (by decide),
      clockGfxStep_frame (by decide) (by decide) (by decide),
      clocksInit_frame (by decide) (by decide) (by decide) (by decide) (by decide) (by decide),
      metricsStep_frame (by decide) (by decide),
      activityStep_frame (by decide) (by decide) (by decide),
      criticalStep_frame (by decide),
      tempStep_frame (by decide) (by decide) (by decide),
      fwStep_frame (by decide),
      vbiosStep_frame (by decide) (by decide),
      driverStep_frame (by decide) (by decide)]
  simp only [bdfStep, fs_bdf]
  cases e.device_bdf <;> simp [dget?, dset]

theorem look_critical_temp (e : Env) :
    dget? (get_gpu_info e) "critical_temp" = fs_critical_temp e := by
  simp only [get_gpu_info]
  rw [processStep_frame (by decide),
      violationStep_frame (by decide),
      numaStep_frame (by decide),
      xgmiStep_frame (by decide),
      throughputStep_frame (by decide) (by decide),
      pcieStep_frame (by decide) (by decide) (by decide) (by decide) (by decide),
      badPagesStep_frame (by decide),
      eccCountStep_frame (by decide) (by decide),
      eccEnabledStep_frame (by decide) (by decide) (by decide),
      fanMaxStep_frame (by decide),
      fanStep_frame (by decide) (by decide) (by decide),
      vramInfoStep_frame (by decide) (by decide) (by decide),
      vramUsageStep_frame (by decide) (by decide),
      voltageStep_frame (by decide) (by decide) (by decide),
      energyStep_frame (by decide),
      powerCapStep_frame (by decide) (by decide) (by decide) (by decide),
      powerStep_frame (by decide) (by decide) (by decide),
      powerInit_frame (by decide) (by decide) (by decide) (by decide) (by decide) (by decide),
      perfStep_frame (by decide),
      clkFreqStep_frame (by decide),
      clockMemStep_frame (by decide) (by decide) (by decide),
      clockGfxStep_frame (by decide) (by decide) (by decide),
      clocksInit_frame (by decide) (by decide) (by decide) (by decide) (by decide) (by decide),
      metricsStep_frame (by decide) (by decide),
      activityStep_frame (by decide) (by decide) (by decide)]
  simp only [criticalStep, fs_critical_temp]
  cases e.temp_edge_critical <;> simp [dget?, dset]

theorem look_perf_level (e : Env) :
    dget? (get_gpu_info e) "perf_level" = fs_perf_level e := by
  simp only [get_gpu_info]
  rw [processStep_frame (by decide),
      violationStep_frame (by decide),
      numaStep_frame (by decide),
      xgmiStep_frame (by decide),
      throughputStep_frame (by decide) (by decide),
      pcieStep_frame (by decide) (by decide) (by decide) (by decide) (by decide),
      badPagesStep_frame (by decide),
      eccCountStep_frame (by decide) (by decide),
      eccEnabledStep_frame (by decide) (by decide) (by decide),
      fanMaxStep_frame (by decide),
      fanStep_frame (by decide) (by decide) (by decide),
      vramInfoStep_frame (by decide) (by decide) (by decide),
      vramUsageStep_frame (by decide) (by decide),
      voltageStep_frame (by decide) (by decide) (by decide),
      energyStep_frame (by decide),
      powerCapStep_frame (by decide) (by decide) (by decide) (by decide),
      powerStep_frame (by decide) (by decide) (by decide),
      powerInit_frame (by decide) (by decide) (by decide) (by decide) (by decide) (by decide)]
  simp only [perfStep, fs_perf_level]
  cases e.perf_level <;> simp [dget?, dset]

theorem look_numa_node (e : Env) :
    dget? (get_gpu_info e) "numa_node" = fs_numa_node e := by
  simp only [get_gpu_info]
  rw [processStep_frame (by decide),
      violationStep_frame (by decide)]
  simp only [numaStep, fs_numa_node]
  cases e.numa_node <;> simp [dget?, dset]

theorem look_driver_version (e : Env) :
    dget? (get_gpu_info e) "driver_version" = fs_driver_version e := by
  simp only [get_gpu_info]
  rw [processStep_frame (by decide),
      violationStep_frame (by decide),
      numaStep_frame (by decide),
      xgmiStep_frame (by decide),
      throughputStep_frame (by decide) (by decide),
      pcieStep_frame (by decide) (by decide) (by decide) (by decide) (by decide),
      badPagesStep_frame (by decide),
      eccCountStep_frame (by decide) (by decide),
      eccEnabledStep_frame (by decide) (by decide) (by decide),
      fanMaxStep_frame (by decide),
      fanStep_frame (by decide) (by decide) (by decide),
      vramInfoStep_frame (by decide) (by decide) (by decide),
      vramUsageStep_frame (by decide) (by decide),
      voltageStep_frame (by decide) (by decide) (by decide),
      energyStep_frame (by decide),
      powerCapStep_frame (by decide) (by decide) (by decide) (by decide),
      powerStep_frame (by decide) (by decide) (by decide),
      powerInit_frame (by decide) (by decide) (by decide) (by decide) (by decide) (by decide),
      perfStep_frame (by decide),
      clkFreqStep_frame (by decide),
      clockMemStep_frame (by decide) (by decide) (by decide),
      clockGfxStep_frame (by decide) (by decide) (by decide),
      clocksInit_frame (by decide) (by decide) (by decide) (by decide) (by decide) (by decide),
      metricsStep_frame (by decide) (by decide),
      activityStep_frame (by decide) (by decide) (by decide),
      criticalStep_frame (by decide),
      tempStep_frame (by decide) (by decide) (by decide),
      fwStep_frame (by decide),
      vbiosStep_frame (by decide) (by decide)]
  simp only [driverStep, fs_driver_version]
  cases e.driver_info <;> simp [dget?, dset]

theorem look_driver_date (e : Env) :
    dget? (get_gpu_info e) "driver_date" = fs_driver_date e := by
  simp only [get_gpu_info]
  rw [processStep_frame (by decide),
      violationStep_frame (by decide),
      numaStep_frame (by decide),
      xgmiStep_frame (by decide),
      throughputStep_frame (by decide) (by decide),
      pcieStep_frame (by decide) (by decide) (by decide) (by decide) (by decide),
      badPagesStep_frame (by decide),
      eccCountStep_frame (by decide) (by decide),
      eccEnabledStep_frame (by decide) (by decide) (by decide),
      fanMaxStep_frame (by decide),
      fanStep_frame (by decide) (by decide) (by decide),
      vramInfoStep_frame (by decide) (by decide) (by decide),
      vramUsageStep_frame (by decide) (by decide),
      voltageStep_frame (by decide) (by decide) (by decide),
      energyStep_frame (by decide),
      powerCapStep_frame (by decide) (by decide) (by decide) (by decide),
      powerStep_frame (by decide) (by decide) (by decide),
      powerInit_frame (by decide) (by decide) (by decide) (by decide) (by decide) (by decide),
      perfStep_frame (by decide),
      clkFreqStep_frame (by decide),
      clockMemStep_frame (by decide) (by decide) (by decide),
      clockGfxStep_frame (by decide) (by decide) (by decide),
      clocksInit_frame (by decide) (by decide) (by decide) (by decide) (by decide) (by decide),
      metricsStep_frame (by decide) (by decide),
      activityStep_frame (by decide) (by decide) (by decide),
      criticalStep_frame (by decide),
      tempStep_frame (by decide) (by decide) (by decide),
      fwStep_frame (by decide),
      vbiosStep_frame (by decide) (by decide)]
  simp only [driverStep, fs_driver_date]
  cases e.driver_info <;> simp [dget?, dset]

theorem look_vbios_version (e : Env) :
    dget? (get_gpu_info e) "vbios_version" = fs_vbios_version e := by
  simp only [get_gpu_info]
  rw [processStep_frame (by decide),
      violationStep_frame (by decide),
      numaStep_frame (by decide),
      xgmiStep_frame (by decide),
      throughputStep_frame (by decide) (by decide),
      pcieStep_frame (by decide) (by decide) (by decide) (by decide) (by decide),
      badPagesStep_frame (by decide),
      eccCountStep_frame (by decide) (by decide),
      eccEnabledStep_frame (by decide) (by decide) (by decide),
      fanMaxStep_frame (by decide),
      fanStep_frame (by decide) (by decide) (by decide),
      vramInfoStep_frame (by decide) (by decide) (by decide),
      vramUsageStep_frame (by decide) (by decide),
      voltageStep_frame (by decide) (by decide) (by decide),
      energyStep_frame (by decide),
      powerCapStep_frame (by decide) (by decide) (by decide) (by decide),
      powerStep_frame (by decide) (by decide) (by decide),
      powerInit_frame (by decide) (by decide) (by decide) (by decide) (by decide) (by decide),
      perfStep_frame (by decide),
      clkFreqStep_frame (by decide),
      clockMemStep_frame (by decide) (by decide) (by decide),
      clockGfxStep_frame (by decide) (by decide) (by decide),
      clocksInit_frame (by decide) (by decide) (by decide) (by decide) (by decide) (by decide),
      metricsStep_frame (by decide) (by decide),
      activityStep_frame (by decide) (by decide) (by decide),
      criticalStep_frame (by decide),
      tempStep_frame (by decide) (by decide) (by decide),
      fwStep_frame (by decide)]
  simp only [vbiosStep, fs_vbios_version]
  cases e.vbios_info <;> simp [dget?, dset]

theorem look_vbios_date (e : Env) :
    dget? (get_gpu_info e) "vbios_date" = fs_vbios_date e := by
  simp only [get_gpu_info]
  rw [processStep_frame (by decide),
      violationStep_frame (by decide),
      numaStep_frame (by decide),
      xgmiStep_frame (by decide),
      throughputStep_frame (by decide) (by decide),
      pcieStep_frame (by decide) (by decide) (by decide) (by decide) (by decide),
      badPagesStep_frame (by decide),
      eccCountStep_frame (by decide) (by decide),
      eccEnabledStep_frame (by decide) (by decide) (by decide),
      fanMaxStep_frame (by decide),
      fanStep_frame (by decide) (by decide) (by decide),
      vramInfoStep_frame (by decide) (by decide) (by decide),
      vramUsageStep_frame (by decide) (by decide),
      voltageStep_frame (by decide) (by decide) (by decide),
      energyStep_frame (by decide),
      powerCapStep_frame (by decide) (by decide) (by decide) (by decide),
      powerStep_frame (by decide) (by decide) (by decide),
      powerInit_frame (by decide) (by decide) (by decide) (by decide) (by decide) (by decide),
      perfStep_frame (by decide),
      clkFreqStep_frame (by decide),
      clockMemStep_frame (by decide) (by decide) (by decide),
      clockGfxStep_frame (by decide) (by decide) (by decide),
      clocksInit_frame (by decide) (by decide) (by decide) (by decide) (by decide) (by decide),
      metricsStep_frame (by decide) (by decide),
      activityStep_frame (by decide) (by decide) (by decide),
      criticalStep_frame (by decide),
      tempStep_frame (by decide) (by decide) (by decide),
      fwStep_frame (by decide)]
  simp only [vbiosStep, fs_vbios_date]
  cases e.vbios_info <;> simp [dget?, dset]

theorem look_gpu_util (e : Env) :
    dget? (get_gpu_info e) "gpu_util" = fs_gpu_util e := by
  simp only [get_gpu_info]
  rw [processStep_frame (by decide),
      violationStep_frame (by decide),
      numaStep_frame (by decide),
      xgmiStep_frame (by decide),
      throughputStep_frame (by decide) (by decide),
      pcieStep_frame (by decide) (by decide) (by decide) (by decide) (by decide),
      badPagesStep_frame (by decide),
      eccCountStep_frame (by decide) (by decide),
      eccEnabledStep_frame (by decide) (by decide) (by decide),
      fanMaxStep_frame (by decide),
      fanStep_frame (by decide) (by decide) (by decide),
      vramInfoStep_frame (by decide) (by decide) (by decide),
      vramUsageStep_frame (by decide) (by decide),
      voltageStep_frame (by decide) (by decide) (by decide),
      energyStep_frame (by decide),
      powerCapStep_frame (by decide) (by decide) (by decide) (by decide),
      powerStep_frame (by decide) (by decide) (by decide),
      powerInit_frame (by decide) (by decide) (by decide) (by decide) (by decide) (by decide),
      perfStep_frame (by decide),
      clkFreqStep_frame (by decide),
      clockMemStep_frame (by decide) (by decide) (by decide),
      clockGfxStep_frame (by decide) (by decide) (by decide),
      clocksInit_frame (by decide) (by decide) (by decide) (by decide) (by decide) (by decide),
      metricsStep_frame (by decide) (by decide)]
  simp only [activityStep, fs_gpu_util]
  cases e.gpu_activity <;> simp [dget?, dset]

theorem look_mem_util (e : Env) :
    dget? (get_gpu_info e) "mem_util" = fs_mem_util e := by
  simp only [get_gpu_info]
  rw [processStep_frame (by decide),
      violationStep_frame (by decide),
      numaStep_frame (by decide),
      xgmiStep_frame (by decide),
      throughputStep_frame (by decide) (by decide),
      pcieStep_frame (by decide) (by decide) (by decide) (by decide) (by decide),
      badPagesStep_frame (by decide),
      eccCountStep_frame (by decide) (by decide),
      eccEnabledStep_frame (by decide) (by decide) (by decide),
      fanMaxStep_frame (by decide),
      fanStep_frame (by decide) (by decide) (by decide),
      vramInfoStep_frame (by decide) (by decide) (by decide),
      vramUsageStep_frame (by decide) (by decide),
      voltageStep_frame (by decide) (by decide) (by decide),
      energyStep_frame (by decide),
      powerCapStep_frame (by decide) (by decide) (by decide) (by decide),
      powerStep_frame (by decide) (by decide) (by decide),
      powerInit_frame (by decide) (by decide) (by decide) (by decide) (by decide) (by decide),
      perfStep_frame (by decide),
      clkFreqStep_frame (by decide),
      clockMemStep_frame (by decide) (by decide) (by decide),
      clockGfxStep_frame (by decide) (by decide) (by decide),
      clocksInit_frame (by decide) (by decide) (by decide) (by decide) (by decide) (by decide),
      metricsStep_frame (by decide) (by decide)]
  simp only [activityStep, fs_mem_util]
  cases e.gpu_activity <;> simp [dget?, dset]

theorem look_mm_util (e : Env) :
    dget? (get_gpu_info e) "mm_util" = fs_mm_util e := by
  simp only [get_gpu_info]
  rw [processStep_frame (by decide),
      violationStep_frame (by decide),
      numaStep_frame (by decide),
      xgmiStep_frame (by decide),
      throughputStep_frame (by decide) (by decide),
      pcieStep_frame (by decide) (by decide) (by decide) (by decide) (by decide),
      badPagesStep_frame (by decide),
      eccCountStep_frame (by decide) (by decide),
      eccEnabledStep_frame (by decide) (by decide) (by decide),
      fanMaxStep_frame (by decide),
      fanStep_frame (by decide) (by decide) (by decide),
      vramInfoStep_frame (by decide) (by decide) (by decide),
      vramUsageStep_frame (by decide) (by decide),
      voltageStep_frame (by decide) (by decide) (by decide),
      energyStep_frame (by decide),
      powerCapStep_frame (by decide) (by decide) (by decide) (by decide),
      powerStep_frame (by decide) (by decide) (by decide),
      powerInit_frame (by decide) (by decide) (by decide) (by decide) (by decide) (by decide),
      perfStep_frame (by decide),
      clkFreqStep_frame (by decide),
      clockMemStep_frame (by decide) (by decide) (by decide),
      clockGfxStep_frame (by decide) (by decide) (by decide),
      clocksInit_frame (by decide) (by decide) (by decide) (by decide) (by decide) (by decide),
      metricsStep_frame (by decide) (by decide)]
  simp only [activityStep, fs_mm_util]
  cases e.gpu_activity <;> simp [dget?, dset]

theorem look_energy_counter (e : Env) :
    dget? (get_gpu_info e) "energy_counter" = fs_energy_counter e := by
  simp only [get_gpu_info]
  rw [processStep_frame (by decide),
      violationStep_frame (by decide),
      numaStep_frame (by decide),
      xgmiStep_frame (by decide),
      throughputStep_frame (by decide) (by decide),
      pcieStep_frame (by decide) (by decide) (by decide) (by decide) (by decide),
      badPagesStep_frame (by decide),
      eccCountStep_frame (by decide) (by decide),
      eccEnabledStep_frame (by decide) (by decide) (by decide),
      fanMaxStep_frame (by decide),
      fanStep_frame (by decide) (by decide) (by decide),
      vramInfoStep_frame (by decide) (by decide) (by decide),
      vramUsageStep_frame (by decide) (by decide),
      voltageStep_frame (by decide) (by decide) (by decide)]
  simp only [energyStep, fs_energy_counter]
  cases e.energy_count <;> simp [dget?, dset]

theorem look_voltage_gfx (e : Env) :
    dget? (get_gpu_info e) "voltage_gfx" = fs_voltage_gfx e := by
  simp only [get_gpu_info]
  rw [processStep_frame (by decide),
      violationStep_frame (by decide),
      numaStep_frame (by decide),
      xgmiStep_frame (by decide),
      throughputStep_frame (by decide) (by decide),
      pcieStep_frame (by decide) (by decide) (by decide) (by decide) (by decide),
      badPagesStep_frame (by decide),
      eccCountStep_frame (by decide) (by decide),
      eccEnabledStep_frame (by decide) (by decide) (by decide),
      fanMaxStep_frame (by decide),
      fanStep_frame (by decide) (by decide) (by decide),
      vramInfoStep_frame (by decide) (by decide) (by decide),
      vramUsageStep_frame (by decide) (by decide)]
  simp only [voltageStep, fs_voltage_gfx]
  cases e.power_info <;> simp [dget?, dset]

theorem look_voltage_soc (e : Env) :
    dget? (get_gpu_info e) "voltage_soc" = fs_voltage_soc e := by
  simp only [get_gpu_info]
  rw [processStep_frame (by decide),
      violationStep_frame (by decide),
      numaStep_frame (by decide),
      xgmiStep_frame (by decide),
      throughputStep_frame (by decide) (by decide),
      pcieStep_frame (by decide) (by decide) (by decide) (by decide) (by decide),
      badPagesStep_frame (by decide),
      eccCountStep_frame (by decide) (by decide),
      eccEnabledStep_frame (by decide) (by decide) (by decide),
      fanMaxStep_frame (by decide),
      fanStep_frame (by decide) (by decide) (by decide),
      vramInfoStep_frame (by decide) (by decide) (by decide),
      vramUsageStep_frame (by decide) (by decide)]
  simp only [voltageStep, fs_voltage_soc]
  cases e.power_info <;> simp [dget?, dset]

theorem look_voltage_mem (e : Env) :
    dget? (get_gpu_info e) "voltage_mem" = fs_voltage_mem e := by
  simp only [get_gpu_info]
  rw [processStep_frame (by decide),
      violationStep_frame (by decide),
      numaStep_frame (by decide),
      xgmiStep_frame (by decide),
      throughputStep_frame (by decide) (by decide),
      pcieStep_frame (by decide) (by decide) (by decide) (by decide) (by decide),
      badPagesStep_frame (by decide),
      eccCountStep_frame (by decide) (by decide),
      eccEnabledStep_frame (by decide) (by decide) (by decide),
      fanMaxStep_frame (by decide),
      fanStep_frame (by decide) (by decide) (by decide),
      vramInfoStep_frame (by decide) (by decide) (by decide),
      vramUsageStep_frame (by decide) (by decide)]
  simp only [voltageStep, fs_voltage_mem]
  cases e.power_info <;> simp [dget?, dset]

theorem look_vram_used (e : Env) :
    dget? (get_gpu_info e) "vram_used" = fs_vram_used e := by
  simp only [get_gpu_info]
  rw [processStep_frame (by decide),
      violationStep_frame (by decide),
      numaStep_frame (by decide),
      xgmiStep_frame (by decide),
      throughputStep_frame (by decide) (by decide),
      pcieStep_frame (by decide) (by decide) (by decide) (by decide) (by decide),
      badPagesStep_frame (by decide),
      eccCountStep_frame (by decide) (by decide),
      eccEnabledStep_frame (by decide) (by decide) (by decide),
      fanMaxStep_frame (by decide),
      fanStep_frame (by decide) (by decide) (by decide),
      vramInfoStep_frame (by decide) (by decide) (by decide)]
  simp only [vramUsageStep, fs_vram_used]
  cases e.vram_usage <;> simp [dget?, dset]

theorem look_vram_total (e : Env) :
    dget? (get_gpu_info e) "vram_total" = fs_vram_total e := by
  simp only [get_gpu_info]
  rw [processStep_frame (by decide),
      violationStep_frame (by decide),
      numaStep_frame (by decide),
      xgmiStep_frame (by decide),
      throughputStep_frame (by decide) (by decide),
      pcieStep_frame (by decide) (by decide) (by decide) (by decide) (by decide),
      badPagesStep_frame (by decide),
      eccCountStep_frame (by decide) (by decide),
      eccEnabledStep_frame (by decide) (by decide) (by decide),
      fanMaxStep_frame (by decide),
      fanStep_frame (by decide) (by decide) (by decide),
      vramInfoStep_frame (by decide) (by decide) (by decide)]
  simp only [vramUsageStep, fs_vram_total]
  cases e.vram_usage <;> simp [dget?, dset]

theorem look_edge_temp (e : Env) :
    dget? (get_gpu_info e) "edge_temp" = fs_edge_temp e := by
  simp only [get_gpu_info]
  rw [processStep_frame (by decide),
      violationStep_frame (by decide),
      numaStep_frame (by decide),
      xgmiStep_frame (by decide),
      throughputStep_frame (by decide) (by decide),
      pcieStep_frame (by decide) (by decide) (by decide) (by decide) (by decide),
      badPagesStep_frame (by decide),
      eccCountStep_frame (by decide) (by decide),
      eccEnabledStep_frame (by decide) (by decide) (by decide),
      fanMaxStep_frame (by decide),
      fanStep_frame (by decide) (by decide) (by decide),
      vramInfoStep_frame (by decide) (by decide) (by decide),
      vramUsageStep_frame (by decide) (by decide),
      voltageStep_frame (by decide) (by decide) (by decide),
      energyStep_frame (by decide),
      powerCapStep_frame (by decide) (by decide) (by decide) (by decide),
      powerStep_frame (by decide) (by decide) (by decide),
      powerInit_frame (by decide) (by decide) (by decide) (by decide) (by decide) (by decide),
      perfStep_frame (by decide),
      clkFreqStep_frame (by decide),
      clockMemStep_frame (by decide) (by decide) (by decide),
      clockGfxStep_frame (by decide) (by decide) (by decide),
      clocksInit_frame (by decide) (by decide) (by decide) (by decide) (by decide) (by decide),
      metricsStep_frame (by decide) (by decide),
      activityStep_frame (by decide) (by decide) (by decide),
      criticalStep_frame (by decide)]
  simp only [tempStep, fs_edge_temp]
  cases e.temp_edge_current <;> cases e.temp_junction_current <;> cases e.temp_vram_current <;>
    simp [dget?, dset]

theorem look_junction_temp (e : Env) :
    dget? (get_gpu_info e) "junction_temp" = fs_junction_temp e := by
  simp only [get_gpu_info]
  rw [processStep_frame (by decide),
      violationStep_frame (by decide),
      numaStep_frame (by decide),
      xgmiStep_frame (by decide),
      throughputStep_frame (by decide) (by decide),
      pcieStep_frame (by decide) (by decide) (by decide) (by decide) (by decide),
      badPagesStep_frame (by decide),
      eccCountStep_frame (by decide) (by decide),
      eccEnabledStep_frame (by decide) (by decide) (by decide),
      fanMaxStep_frame (by decide),
      fanStep_frame (by decide) (by decide) (by decide),
      vramInfoStep_frame (by decide) (by decide) (by decide),
      vramUsageStep_frame (by decide) (by decide),
      voltageStep_frame (by decide) (by decide) (by decide),
      energyStep_frame (by decide),
      powerCapStep_frame (by decide) (by decide) (by decide) (by decide),
      powerStep_frame (by decide) (by decide) (by decide),
      powerInit_frame (by decide) (by decide) (by decide) (by decide) (by decide) (by decide),
      perfStep_frame (by decide),
      clkFreqStep_frame (by decide),
      clockMemStep_frame (by decide) (by decide) (by decide),
      clockGfxStep_frame (by decide) (by decide) (by decide),
      clocksInit_frame (by decide) (by decide) (by decide) (by decide) (by decide) (by decide),
      metricsStep_frame (by decide) (by decide),
      activityStep_frame (by decide) (by decide) (by decide),
      criticalStep_frame (by decide)]
  simp only [tempStep, fs_junction_temp]
  cases e.temp_edge_current <;> cases e.temp_junction_current <;> cases e.temp_vram_current <;>
    simp [dget?, dset]

theorem look_mem_temp (e : Env) :
    dget? (get_gpu_info e) "mem_temp" = fs_mem_temp e := by
  simp only [get_gpu_info]
  rw [processStep_frame (by decide),
      violationStep_frame (by decide),
      numaStep_frame (by decide),
      xgmiStep_frame (by decide),
      throughputStep_frame (by decide) (by decide),
      pcieStep_frame (by decide) (by decide) (by decide) (by decide) (by decide),
      badPagesStep_frame (by decide),
      eccCountStep_frame (by decide) (by decide),
      eccEnabledStep_frame (by decide) (by decide) (by decide),
      fanMaxStep_frame (by decide),
      fanStep_frame (by decide) (by decide) (by decide),
      vramInfoStep_frame (by decide) (by decide) (by decide),
      vramUsageStep_frame (by decide) (by decide),
      voltageStep_frame (by decide) (by decide) (by decide),
      energyStep_frame (by decide),
      powerCapStep_frame (by decide) (by decide) (by decide) (by decide),
      powerStep_frame (by decide) (by decide) (by decide),
      powerInit_frame (by decide) (by decide) (by decide) (by decide) (by decide) (by decide),
      perfStep_frame (by decide),
      clkFreqStep_frame (by decide),
      clockMemStep_frame (by decide) (by decide) (by decide),
      clockGfxStep_frame (by decide) (by decide) (by decide),
      clocksInit_frame (by decide) (by decide) (by decide) (by decide) (by decide) (by decide),
      metricsStep_frame (by decide) (by decide),
      activityStep_frame (by decide) (by decide) (by decide),
      criticalStep_frame (by decide)]
  simp only [tempStep, fs_mem_temp]
  cases e.temp_edge_current <;> cases e.temp_junction_current <;> cases e.temp_vram_current <;>
    simp [dget?, dset]

theorem look_firmware_info (e : Env) :
    dget? (get_gpu_info e) "firmware_info" = fs_firmware_info e := by
  simp only [get_gpu_info]
  rw [processStep_frame (by decide),
      violationStep_frame (by decide),
      numaStep_frame (by decide),
      xgmiStep_frame (by decide),
      throughputStep_frame (by decide) (by decide),
      pcieStep_frame (by decide) (by decide) (by decide) (by decide) (by decide),
      badPagesStep_frame (by decide),
      eccCountStep_frame (by decide) (by decide),
      eccEnabledStep_frame (by decide) (by decide) (by decide),
      fanMaxStep_frame (by decide),
      fanStep_frame (by decide) (by decide) (by decide),
      vramInfoStep_frame (by decide) (by decide) (by decide),
      vramUsageStep_frame (by decide) (by decide),
      voltageStep_frame (by decide) (by decide) (by decide),
      energyStep_frame (by decide),
      powerCapStep_frame (by decide) (by decide) (by decide) (by decide),
      powerStep_frame (by decide) (by decide) (by decide),
      powerInit_frame (by decide) (by decide) (by decide) (by decide) (by decide) (by decide),
      perfStep_frame (by decide),
      clkFreqStep_frame (by decide),
      clockMemStep_frame (by decide) (by decide) (by decide),
      clockGfxStep_frame (by decide) (by decide) (by decide),
      clocksInit_frame (by decide) (by decide) (by decide) (by decide) (by decide) (by decide),
      metricsStep_frame (by decide) (by decide),
      activityStep_frame (by decide) (by decide) (by decide),
      criticalStep_frame (by decide),
      tempStep_frame (by decide) (by decide) (by decide)]
  simp only [fwStep, fs_firmware_info]
  cases e.fw_info with
  | none => simp [dget?, dset]
  | some fw =>
    by_cases hc : (hasKey fw "fw_list" && pyTruthy ((dget? fw "fw_list").getD Val.noneV)) = true
    · simp [dget?, dset, hc]
    · simp [dget?, dset, hc]

theorem look_encoder_util (e : Env) :
    dget? (get_gpu_info e) "encoder_util" = fs_encoder_util e := by
  simp only [get_gpu_info]
  rw [processStep_frame (by decide),
      violationStep_frame (by decide),
      numaStep_frame (by decide),
      xgmiStep_frame (by decide),
      throughputStep_frame (by decide) (by decide),
      pcieStep_frame (by decide) (by decide) (by decide) (by decide) (by decide),
      badPagesStep_frame (by decide),
      eccCountStep_frame (by decide) (by decide),
      eccEnabledStep_frame (by decide) (by decide) (by decide),
      fanMaxStep_frame (by decide),
      fanStep_frame (by decide) (by decide) (by decide),
      vramInfoStep_frame (by decide) (by decide) (by decide),
      vramUsageStep_frame (by decide) (by decide),
      voltageStep_frame (by decide) (by decide) (by decide),
      energyStep_frame (by decide),
      powerCapStep_frame (by decide) (by decide) (by decide) (by decide),
      powerStep_frame (by decide) (by decide) (by decide),
      powerInit_frame (by decide) (by decide) (by decide) (by decide) (by decide) (by decide),
      perfStep_frame (by decide),
      clkFreqStep_frame (by decide),
      clockMemStep_frame (by decide) (by decide) (by decide),
      clockGfxStep_frame (by decide) (by decide) (by decide),
      clocksInit_frame (by decide) (by decide) (by decide) (by decide) (by decide) (by decide)]
  simp only [metricsStep, fs_encoder_util]
  cases e.gpu_metrics_info with
  | none => simp [dget?, dset]
  | some m =>
    repeat' split
    all_goals simp_all [dget?, dset]

theorem look_decoder_util (e : Env) :
    dget? (get_gpu_info e) "decoder_util" = fs_decoder_util e := by
  simp only [get_gpu_info]
  rw [processStep_frame (by decide),
      violationStep_frame (by decide),
      numaStep_frame (by decide),
      xgmiStep_frame (by decide),
      throughputStep_frame (by decide) (by decide),
      pcieStep_frame (by decide) (by decide) (by decide) (by decide) (by decide),
      badPagesStep_frame (by decide),
      eccCountStep_frame (by decide) (by decide),
      eccEnabledStep_frame (by decide) (by decide) (by decide),
      fanMaxStep_frame (by decide),
      fanStep_frame (by decide) (by decide) (by decide),
      vramInfoStep_frame (by decide) (by decide) (by decide),
      vramUsageStep_frame (by decide) (by decide),
      voltageStep_frame (by decide) (by decide) (by decide),
      energyStep_frame (by decide),
      powerCapStep_frame (by decide) (by decide) (by decide) (by decide),
      powerStep_frame (by decide) (by decide) (by decide),
      powerInit_frame (by decide) (by decide) (by decide) (by decide) (by decide) (by decide),
      perfStep_frame (by decide),
      clkFreqStep_frame (by decide),
      clockMemStep_frame (by decide) (by decide) (by decide),
      clockGfxStep_frame (by decide) (by decide) (by decide),
      clocksInit_frame (by decide) (by decide) (by decide) (by decide) (by decide) (by decide)]
  simp only [metricsStep, fs_decoder_util]
  cases e.gpu_metrics_info with
  | none => simp [dget?, dset]
  | some m =>
    repeat' split
    all_goals simp_all [dget?, dset]

theorem look_gpu_clock (e : Env) :
    dget? (get_gpu_info e) "gpu_clock" = fs_gpu_clock e := by
  simp only [get_gpu_info]
  rw [processStep_frame (by decide),
      violationStep_frame (by decide),
      numaStep_frame (by decide),
      xgmiStep_frame (by decide),
      throughputStep_frame (by decide) (by decide),
      pcieStep_frame (by decide) (by decide) (by decide) (by decide) (by decide),
      badPagesStep_frame (by decide),
      eccCountStep_frame (by decide) (by decide),
      eccEnabledStep_frame (by decide) (by decide) (by decide),
      fanMaxStep_frame (by decide),
      fanStep_frame (by decide) (by decide) (by decide),
      vramInfoStep_frame (by decide) (by decide) (by decide),
      vramUsageStep_frame (by decide) (by decide),
      voltageStep_frame (by decide) (by decide) (by decide),
      energyStep_frame (by decide),
      powerCapStep_frame (by decide) (by decide) (by decide) (by decide),
      powerStep_frame (by decide) (by decide) (by decide),
      powerInit_frame (by decide) (by decide) (by decide) (by decide) (by decide) (by decide),
      perfStep_frame (by decide),
      clkFreqStep_frame (by decide),
      clockMemStep_frame (by decide) (by decide) (by decide)]
  simp only [clockGfxStep, clocksInit, fs_gpu_clock]
  cases e.clock_info_gfx <;> simp [dget?, dset]

theorem look_gpu_clock_min (e : Env) :
    dget? (get_gpu_info e) "gpu_clock_min" = fs_gpu_clock_min e := by
  simp only [get_gpu_info]
  rw [processStep_frame (by decide),
      violationStep_frame (by decide),
      numaStep_frame (by decide),
      xgmiStep_frame (by decide),
      throughputStep_frame (by decide) (by decide),
      pcieStep_frame (by decide) (by decide) (by decide) (by decide) (by decide),
      badPagesStep_frame (by decide),
      eccCountStep_frame (by decide) (by decide),
      eccEnabledStep_frame (by decide) (by decide) (by decide),
      fanMaxStep_frame (by decide),
      fanStep_frame (by decide) (by decide) (by decide),
      vramInfoStep_frame (by decide) (by decide) (by decide),
      vramUsageStep_frame (by decide) (by decide),
      voltageStep_frame (by decide) (by decide) (by decide),
      energyStep_frame (by decide),
      powerCapStep_frame (by decide) (by decide) (by decide) (by decide),
      powerStep_frame (by decide) (by decide) (by decide),
      powerInit_frame (by decide) (by decide) (by decide) (by decide) (by decide) (by decide),
      perfStep_frame (by decide),
      clkFreqStep_frame (by decide),
      clockMemStep_frame (by decide) (by decide) (by decide)]
  simp only [clockGfxStep, clocksInit, fs_gpu_clock_min]
  cases e.clock_info_gfx <;> simp [dget?, dset]

theorem look_gpu_clock_max (e : Env) :
    dget? (get_gpu_info e) "gpu_clock_max" = fs_gpu_clock_max e := by
  simp only [get_gpu_info]
  rw [processStep_frame (by decide),
      violationStep_frame (by decide),
      numaStep_frame (by decide),
      xgmiStep_frame (by decide),
      throughputStep_frame (by decide) (by decide),
      pcieStep_frame (by decide) (by decide) (by decide) (by decide) (by decide),
      badPagesStep_frame (by decide),
      eccCountStep_frame (by decide) (by decide),
      eccEnabledStep_frame (by decide) (by decide) (by decide),
      fanMaxStep_frame (by decide),
      fanStep_frame (by decide) (by decide) (by decide),
      vramInfoStep_frame (by decide) (by decide) (by decide),
      vramUsageStep_frame (by decide) (by decide),
      voltageStep_frame (by decide) (by decide) (by decide),
      energyStep_frame (by decide),
      powerCapStep_frame (by decide) (by decide) (by decide) (by decide),
      powerStep_frame (by decide) (by decide) (by decide),
      powerInit_frame (by decide) (by decide) (by decide) (by decide) (by decide) (by decide),
      perfStep_frame (by decide),
      clkFreqStep_frame (by decide),
      clockMemStep_frame (by decide) (by decide) (by decide)]
  simp only [clockGfxStep, clocksInit, fs_gpu_clock_max]
  cases e.clock_info_gfx <;> simp [dget?, dset]

theorem look_mem_clock (e : Env) :
    dget? (get_gpu_info e) "mem_clock" = fs_mem_clock e := by
  simp only [get_gpu_info]
  rw [processStep_frame (by decide),
      violationStep_frame (by decide),
      numaStep_frame (by decide),
      xgmiStep_frame (by decide),
      throughputStep_frame (by decide) (by decide),
      pcieStep_frame (by decide) (by decide) (by decide) (by decide) (by decide),
      badPagesStep_frame (by decide),
      eccCountStep_frame (by decide) (by decide),
      eccEnabledStep_frame (by decide) (by decide) (by decide),
      fanMaxStep_frame (by decide),
      fanStep_frame (by decide) (by decide) (by decide),
      vramInfoStep_frame (by decide) (by decide) (by decide),
      vramUsageStep_frame (by decide) (by decide),
      voltageStep_frame (by decide) (by decide) (by decide),
      energyStep_frame (by decide),
      powerCapStep_frame (by decide) (by decide) (by decide) (by decide),
      powerStep_frame (by decide) (by decide) (by decide),
      powerInit_frame (by decide) (by decide) (by decide) (by decide) (by decide) (by decide),
      perfStep_frame (by decide),
      clkFreqStep_frame (by decide)]
  simp only [clockMemStep, fs_mem_clock]
  cases e.clock_info_mem with
  | none =>
    rw [clockGfxStep_frame (by decide) (by decide) (by decide)]
    simp [clocksInit, dget?, dset]
  | some c => simp [dget?, dset]

theorem look_mem_clock_min (e : Env) :
    dget? (get_gpu_info e) "mem_clock_min" = fs_mem_clock_min e := by
  simp only [get_gpu_info]
  rw [processStep_frame (by decide),
      violationStep_frame (by decide),
      numaStep_frame (by decide),
      xgmiStep_frame (by decide),
      throughputStep_frame (by decide) (by decide),
      pcieStep_frame (by decide) (by decide) (by decide) (by decide) (by decide),
      badPagesStep_frame (by decide),
      eccCountStep_frame (by decide) (by decide),
      eccEnabledStep_frame (by decide) (by decide) (by decide),
      fanMaxStep_frame (by decide),
      fanStep_frame (by decide) (by decide) (by decide),
      vramInfoStep_frame (by decide) (by decide) (by decide),
      vramUsageStep_frame (by decide) (by decide),
      voltageStep_frame (by decide) (by decide) (by decide),
      energyStep_frame (by decide),
      powerCapStep_frame (by decide) (by decide) (by decide) (by decide),
      powerStep_frame (by decide) (by decide) (by decide),
      powerInit_frame (by decide) (by decide) (by decide) (by decide) (by decide) (by decide),
      perfStep_frame (by decide),
      clkFreqStep_frame (by decide)]
  simp only [clockMemStep, fs_mem_clock_min]
  cases e.clock_info_mem with
  | none =>
    rw [clockGfxStep_frame (by decide) (by decide) (by decide)]
    simp [clocksInit, dget?, dset]
  | some c => simp [dget?, dset]

theorem look_mem_clock_max (e : Env) :
    dget? (get_gpu_info e) "mem_clock_max" = fs_mem_clock_max e := by
  simp only [get_gpu_info]
  rw [processStep_frame (by decide),
      violationStep_frame (by decide),
      numaStep_frame (by decide),
      xgmiStep_frame (by decide),
      throughputStep_frame (by decide) (by decide),
      pcieStep_frame (by decide) (by decide) (by decide) (by decide) (by decide),
      badPagesStep_frame (by decide),
      eccCountStep_frame (by decide) (by decide),
      eccEnabledStep_frame (by decide) (by decide) (by decide),
      fanMaxStep_frame (by decide),
      fanStep_frame (by decide) (by decide) (by decide),
      vramInfoStep_frame (by decide) (by decide) (by decide),
      vramUsageStep_frame (by decide) (by decide),
      voltageStep_frame (by decide) (by decide) (by decide),
      energyStep_frame (by decide),
      powerCapStep_frame (by decide) (by decide) (by decide) (by decide),
      powerStep_frame (by decide) (by decide) (by decide),
      powerInit_frame (by decide) (by decide) (by decide) (by decide) (by decide) (by decide),
      perfStep_frame (by decide),
      clkFreqStep_frame (by decide)]
  simp only [clockMemStep, fs_mem_clock_max]
  cases e.clock_info_mem with
  | none =>
    rw [clockGfxStep_frame (by decide) (by decide) (by decide)]
    simp [clocksInit, dget?, dset]
  | some c => simp [dget?, dset]

theorem look_gpu_available_freqs (e : Env) :
    dget? (get_gpu_info e) "gpu_available_freqs" = fs_gpu_available_freqs e := by
  simp only [get_gpu_info]
  rw [processStep_frame (by decide),
      violationStep_frame (by decide),
      numaStep_frame (by decide),
      xgmiStep_frame (by decide),
      throughputStep_frame (by decide) (by decide),
      pcieStep_frame (by decide) (by decide) (by decide) (by decide) (by decide),
      badPagesStep_frame (by decide),
      eccCountStep_frame (by decide) (by decide),
      eccEnabledStep_frame (by decide) (by decide) (by decide),
      fanMaxStep_frame (by decide),
      fanStep_frame (by decide) (by decide) (by decide),
      vramInfoStep_frame (by decide) (by decide) (by decide),
      vramUsageStep_frame (by decide) (by decide),
      voltageStep_frame (by decide) (by decide) (by decide),
      energyStep_frame (by decide),
      powerCapStep_frame (by decide) (by decide) (by decide) (by decide),
      powerStep_frame (by decide) (by decide) (by decide),
      powerInit_frame (by decide) (by decide) (by decide) (by decide) (by decide) (by decide),
      perfStep_frame (by decide)]
  simp only [clkFreqStep, fs_gpu_available_freqs]
  cases e.clk_freq_gfx with
  | none => simp [dget?, dset]
  | some g =>
    by_cases hf : hasKey g "frequency" = true
    · simp [dget?, dset, hf]
    · simp only [hf, if_false, Bool.false_eq_true]
      rw [clockMemStep_frame (by decide) (by decide) (by decide),
      clockGfxStep_frame (by decide) (by decide) (by decide),
      clocksInit_frame (by decide) (by decide) (by decide) (by decide) (by decide) (by decide),
      metricsStep_frame (by decide) (by decide),
      activityStep_frame (by decide) (by decide) (by decide),
      criticalStep_frame (by decide),
      tempStep_frame (by decide) (by decide) (by decide),
      fwStep_frame (by decide),
      vbiosStep_frame (by decide) (by decide),
      driverStep_frame (by decide) (by decide),
      bdfStep_frame (by decide),
      uuidStep_frame (by decide),
      asicStep_frame (by decide) (by decide) (by decide) (by decide) (by decide) (by decide) (by decide)]
      rfl

theorem look_power (e : Env) :
    dget? (get_gpu_info e) "power" = fs_power e := by
  simp only [get_gpu_info]
  rw [processStep_frame (by decide),
      violationStep_frame (by decide),
      numaStep_frame (by decide),
      xgmiStep_frame (by decide),
      throughputStep_frame (by decide) (by decide),
      pcieStep_frame (by decide) (by decide) (by decide) (by decide) (by decide),
      badPagesStep_frame (by decide),
      eccCountStep_frame (by decide) (by decide),
      eccEnabledStep_frame (by decide) (by decide) (by decide),
      fanMaxStep_frame (by decide),
      fanStep_frame (by decide) (by decide) (by decide),
      vramInfoStep_frame (by decide) (by decide) (by decide),
      vramUsageStep_frame (by decide) (by decide),
      voltageStep_frame (by decide) (by decide) (by decide),
      energyStep_frame (by decide),
      powerCapStep_frame (by decide) (by decide) (by decide) (by decide)]
  simp only [powerStep, powerInit, fs_power]
  cases e.power_info <;> simp [dget?, dset]

theorem look_power_avg (e : Env) :
    dget? (get_gpu_info e) "power_avg" = fs_power_avg e := by
  simp only [get_gpu_info]
  rw [processStep_frame (by decide),
      violationStep_frame (by decide),
      numaStep_frame (by decide),
      xgmiStep_frame (by decide),
      throughputStep_frame (by decide) (by decide),
      pcieStep_frame (by decide) (by decide) (by decide) (by decide) (by decide),
      badPagesStep_frame (by decide),
      eccCountStep_frame (by decide) (by decide),
      eccEnabledStep_frame (by decide) (by decide) (by decide),
      fanMaxStep_frame (by decide),
      fanStep_frame (by decide) (by decide) (by decide),
      vramInfoStep_frame (by decide) (by decide) (by decide),
      vramUsageStep_frame (by decide) (by decide),
      voltageStep_frame (by decide) (by decide) (by decide),
      energyStep_frame (by decide),
      powerCapStep_frame (by decide) (by decide) (by decide) (by decide)]
  simp only [powerStep, powerInit, fs_power_avg]
  cases e.power_info <;> simp [dget?, dset]

theorem look_power_cap (e : Env) :
    dget? (get_gpu_info e) "power_cap" = fs_power_cap e := by
  simp only [get_gpu_info]
  rw [processStep_frame (by decide),
      violationStep_frame (by decide),
      numaStep_frame (by decide),
      xgmiStep_frame (by decide),
      throughputStep_frame (by decide) (by decide),
      pcieStep_frame (by decide) (by decide) (by decide) (by decide) (by decide),
      badPagesStep_frame (by decide),
      eccCountStep_frame (by decide) (by decide),
      eccEnabledStep_frame (by decide) (by decide) (by decide),
      fanMaxStep_frame (by decide),
      fanStep_frame (by decide) (by decide) (by decide),
      vramInfoStep_frame (by decide) (by decide) (by decide),
      vramUsageStep_frame (by decide) (by decide),
      voltageStep_frame (by decide) (by decide) (by decide),
      energyStep_frame (by decide)]
  simp only [powerCapStep, powerStep, powerInit, fs_power_cap]
  cases e.power_cap_info <;> cases e.power_info <;> simp [dget?, dset]

theorem look_power_cap_default (e : Env) :
    dget? (get_gpu_info e) "power_cap_default" = fs_power_cap_default e := by
  simp only [get_gpu_info]
  rw [processStep_frame (by decide),
      violationStep_frame (by decide),
      numaStep_frame (by decide),
      xgmiStep_frame (by decide),
      throughputStep_frame (by decide) (by decide),
      pcieStep_frame (by decide) (by decide) (by decide) (by decide) (by decide),
      badPagesStep_frame (by decide),
      eccCountStep_frame (by decide) (by decide),
      eccEnabledStep_frame (by decide) (by decide) (by decide),
      fanMaxStep_frame (by decide),
      fanStep_frame (by decide) (by decide) (by decide),
      vramInfoStep_frame (by decide) (by decide) (by decide),
      vramUsageStep_frame (by decide) (by decide),
      voltageStep_frame (by decide) (by decide) (by decide),
      energyStep_frame (by decide)]
  simp only [powerCapStep, powerStep, powerInit, fs_power_cap_default]
  cases e.power_cap_info <;> cases e.power_info <;> simp [dget?, dset]

theorem look_power_cap_min (e : Env) :
    dget? (get_gpu_info e) "power_cap_min" = fs_power_cap_min e := by
  simp only [get_gpu_info]
  rw [processStep_frame (by decide),
      violationStep_frame (by decide),
      numaStep_frame (by decide),
      xgmiStep_frame (by decide),
      throughputStep_frame (by decide) (by decide),
      pcieStep_frame (by decide) (by decide) (by decide) (by decide) (by decide),
      badPagesStep_frame (by decide),
      eccCountStep_frame (by decide) (by decide),
      eccEnabledStep_frame (by decide) (by decide) (by decide),
      fanMaxStep_frame (by decide),
      fanStep_frame (by decide) (by decide) (by decide),
      vramInfoStep_frame (by decide) (by decide) (by decide),
      vramUsageStep_frame (by decide) (by decide),
      voltageStep_frame (by decide) (by decide) (by decide),
      energyStep_frame (by decide)]
  simp only [powerCapStep, powerStep, powerInit, fs_power_cap_min]
  cases e.power_cap_info <;> cases e.power_info <;> simp [dget?, dset]

theorem look_power_cap_max (e : Env) :
    dget? (get_gpu_info e) "power_cap_max" = fs_power_cap_max e := by
  simp only [get_gpu_info]
  rw [processStep_frame (by decide),
      violationStep_frame (by decide),
      numaStep_frame (by decide),
      xgmiStep_frame (by decide),
      throughputStep_frame (by decide) (by decide),
      pcieStep_frame (by decide) (by decide) (by decide) (by decide) (by decide),
      badPagesStep_frame (by decide),
      eccCountStep_frame (by decide) (by decide),
      eccEnabledStep_frame (by decide) (by decide) (by decide),
      fanMaxStep_frame (by decide),
      fanStep_frame (by decide) (by decide) (by decide),
      vramInfoStep_frame (by decide) (by decide) (by decide),
      vramUsageStep_frame (by decide) (by decide),
      voltageStep_frame (by decide) (by decide) (by decide),
      energyStep_frame (by decide)]
  simp only [powerCapStep, powerStep, powerInit, fs_power_cap_max]
  cases e.power_cap_info <;> cases e.power_info <;> simp [dget?, dset]

theorem look_vram_type (e : Env) :
    dget? (get_gpu_info e) "vram_type" = fs_vram_type e := by
  simp only [get_gpu_info]
  rw [processStep_frame (by decide),
      violationStep_frame (by decide),
      numaStep_frame (by decide),
      xgmiStep_frame (by decide),
      throughputStep_frame (by decide) (by decide),
      pcieStep_frame (by decide) (by decide) (by decide) (by decide) (by decide),
      badPagesStep_frame (by decide),
      eccCountStep_frame (by decide) (by decide),
      eccEnabledStep_frame (by decide) (by decide) (by decide),
      fanMaxStep_frame (by decide),
      fanStep_frame (by decide) (by decide) (by decide)]
  simp only [vramInfoStep, fs_vram_type]
  cases e.vram_info with
  | none => simp [dget?, dset]
  | some vd =>
    by_cases ht : pyTruthy (Val.dictV vd) = true
    · cases e.wrapper_enum with
      | none => cases e.vram_vendor <;> simp [dget?, dset, ht]
      | some enumvals =>
        cases hel : enumLookup enumvals (pyGet vd "vram_type" naV) <;>
          cases e.vram_vendor <;> simp [dget?, dset, ht, hel]
    · simp [dget?, dset, ht]

theorem look_vram_vendor (e : Env) :
    dget? (get_gpu_info e) "vram_vendor" = fs_vram_vendor e := by
  simp only [get_gpu_info]
  rw [processStep_frame (by decide),
      violationStep_frame (by decide),
      numaStep_frame (by decide),
      xgmiStep_frame (by decide),
      throughputStep_frame (by decide) (by decide),
      pcieStep_frame (by decide) (by decide) (by decide) (by decide) (by decide),
      badPagesStep_frame (by decide),
      eccCountStep_frame (by decide) (by decide),
      eccEnabledStep_frame (by decide) (by decide) (by decide),
      fanMaxStep_frame (by decide),
      fanStep_frame (by decide) (by decide) (by decide)]
  simp only [vramInfoStep, fs_vram_vendor]
  cases e.vram_info with
  | none => simp [dget?, dset]
  | some vd =>
    by_cases ht : pyTruthy (Val.dictV vd) = true
    · cases e.wrapper_enum with
      | none => cases e.vram_vendor <;> simp [dget?, dset, ht]
      | some enumvals =>
        cases hel : enumLookup enumvals (pyGet vd "vram_type" naV) <;>
          cases e.vram_vendor <;> simp [dget?, dset, ht, hel]
    · simp [dget?, dset, ht]

theorem look_vram_bit_width (e : Env) :
    dget? (get_gpu_info e) "vram_bit_width" = fs_vram_bit_width e := by
  simp only [get_gpu_info]
  rw [processStep_frame (by decide),
      violationStep_frame (by decide),
      numaStep_frame (by decide),
      xgmiStep_frame (by decide),
      throughputStep_frame (by decide) (by decide),
      pcieStep_frame (by decide) (by decide) (by decide) (by decide) (by decide),
      badPagesStep_frame (by decide),
      eccCountStep_frame (by decide) (by decide),
      eccEnabledStep_frame (by decide) (by decide) (by decide),
      fanMaxStep_frame (by decide),
      fanStep_frame (by decide) (by decide) (by decide)]
  simp only [vramInfoStep, fs_vram_bit_width]
  cases e.vram_info with
  | none => simp [dget?, dset]
  | some vd =>
    by_cases ht : pyTruthy (Val.dictV vd) = true
    · cases e.wrapper_enum with
      | none => cases e.vram_vendor <;> simp [dget?, dset, ht]
      | some enumvals =>
        cases hel : enumLookup enumvals (pyGet vd "vram_type" naV) <;>
          cases e.vram_vendor <;> simp [dget?, dset, ht, hel]
    · simp [dget?, dset, ht]

theorem look_fan_speed_pct (e : Env) :
    dget? (get_gpu_info e) "fan_speed_pct" = fs_fan_speed_pct e := by
  simp only [get_gpu_info]
  rw [processStep_frame (by decide),
      violationStep_frame (by decide),
      numaStep_frame (by decide),
      xgmiStep_frame (by decide),
      throughputStep_frame (by decide) (by decide),
      pcieStep_frame (by decide) (by decide) (by decide) (by decide) (by decide),
      badPagesStep_frame (by decide),
      eccCountStep_frame (by decide) (by decide),
      eccEnabledStep_frame (by decide) (by decide) (by decide),
      fanMaxStep_frame (by decide)]
  simp only [fanStep, fs_fan_speed_pct]
  cases e.fan_speed <;> cases e.fan_rpms <;> simp [dget?, dset]

theorem look_fan_speed_rpm (e : Env) :
    dget? (get_gpu_info e) "fan_speed_rpm" = fs_fan_speed_rpm e := by
  simp only [get_gpu_info]
  rw [processStep_frame (by decide),
      violationStep_frame (by decide),
      numaStep_frame (by decide),
      xgmiStep_frame (by decide),
      throughputStep_frame (by decide) (by decide),
      pcieStep_frame (by decide) (by decide) (by decide) (by decide) (by decide),
      badPagesStep_frame (by decide),
      eccCountStep_frame (by decide) (by decide),
      eccEnabledStep_frame (by decide) (by decide) (by decide),
      fanMaxStep_frame (by decide)]
  simp only [fanStep, fs_fan_speed_rpm]
  cases e.fan_speed <;> cases e.fan_rpms <;> simp [dget?, dset]

theorem look_fan_max_rpm (e : Env) :
    dget? (get_gpu_info e) "fan_max_rpm" = fs_fan_max_rpm e := by
  simp only [get_gpu_info]
  rw [processStep_frame (by decide),
      violationStep_frame (by decide),
      numaStep_frame (by decide),
      xgmiStep_frame (by decide),
      throughputStep_frame (by decide) (by decide),
      pcieStep_frame (by decide) (by decide) (by decide) (by decide) (by decide),
      badPagesStep_frame (by decide),
      eccCountStep_frame (by decide) (by decide),
      eccEnabledStep_frame (by decide) (by decide) (by decide)]
  simp only [fanMaxStep, fanStep, fs_fan_max_rpm]
  cases e.fan_speed_max <;> cases e.fan_speed <;> cases e.fan_rpms <;> simp [dget?, dset]

theorem look_ecc_enabled (e : Env) :
    dget? (get_gpu_info e) "ecc_enabled" = fs_ecc_enabled e := by
  simp only [get_gpu_info]
  rw [processStep_frame (by decide),
      violationStep_frame (by decide),
      numaStep_frame (by decide),
      xgmiStep_frame (by decide),
      throughputStep_frame (by decide) (by decide),
      pcieStep_frame (by decide) (by decide) (by decide) (by decide) (by decide),
      badPagesStep_frame (by decide),
      eccCountStep_frame (by decide) (by decide)]
  simp only [eccEnabledStep, fs_ecc_enabled]
  cases e.ecc_enabled <;> simp [dget?, dset]

theorem look_single_ecc (e : Env) :
    dget? (get_gpu_info e) "single_ecc" = fs_single_ecc e := by
  simp only [get_gpu_info]
  rw [processStep_frame (by decide),
      violationStep_frame (by decide),
      numaStep_frame (by decide),
      xgmiStep_frame (by decide),
      throughputStep_frame (by decide) (by decide),
      pcieStep_frame (by decide) (by decide) (by decide) (by decide) (by decide),
      badPagesStep_frame (by decide)]
  simp only [eccCountStep, eccEnabledStep, fs_single_ecc]
  cases e.total_ecc_count <;> cases e.ecc_enabled <;> simp [dget?, dset]

theorem look_double_ecc (e : Env) :
    dget? (get_gpu_info e) "double_ecc" = fs_double_ecc e := by
  simp only [get_gpu_info]
  rw [processStep_frame (by decide),
      violationStep_frame (by decide),
      numaStep_frame (by decide),
      xgmiStep_frame (by decide),
      throughputStep_frame (by decide) (by decide),
      pcieStep_frame (by decide) (by decide) (by decide) (by decide) (by decide),
      badPagesStep_frame (by decide)]
  simp only [eccCountStep, eccEnabledStep, fs_double_ecc]
  cases e.total_ecc_count <;> cases e.ecc_enabled <;> simp [dget?, dset]

theorem look_bad_pages (e : Env) :
    dget? (get_gpu_info e) "bad_pages" = fs_bad_pages e := by
  simp only [get_gpu_info]
  rw [processStep_frame (by decide),
      violationStep_frame (by decide),
      numaStep_frame (by decide),
      xgmiStep_frame (by decide),
      throughputStep_frame (by decide) (by decide),
      pcieStep_frame (by decide) (by decide) (by decide) (by decide) (by decide)]
  simp only [badPagesStep, fs_bad_pages]
  cases e.bad_page_info with
  | none => simp [dget?, dset]
  | some v => cases v <;> simp [dget?, dset]

theorem look_pcie_tx (e : Env) :
    dget? (get_gpu_info e) "pcie_tx" = fs_pcie_tx e := by
  simp only [get_gpu_info]
  rw [processStep_frame (by decide),
      violationStep_frame (by decide),
      numaStep_frame (by decide),
      xgmiStep_frame (by decide)]
  simp only [throughputStep, fs_pcie_tx]
  cases e.pci_throughput with
  | none => simp [dget?, dset]
  | some t => cases t <;> simp [dget?, dset]

theorem look_pcie_rx (e : Env) :
    dget? (get_gpu_info e) "pcie_rx" = fs_pcie_rx e := by
  simp only [get_gpu_info]
  rw [processStep_frame (by decide),
      violationStep_frame (by decide),
      numaStep_frame (by decide),
      xgmiStep_frame (by decide)]
  simp only [throughputStep, fs_pcie_rx]
  cases e.pci_throughput with
  | none => simp [dget?, dset]
  | some t => cases t <;> simp [dget?, dset]

theorem look_xgmi_info (e : Env) :
    dget? (get_gpu_info e) "xgmi_info" = fs_xgmi_info e := by
  simp only [get_gpu_info]
  rw [processStep_frame (by decide),
      violationStep_frame (by decide),
      numaStep_frame (by decide)]
  simp only [xgmiStep, fs_xgmi_info]
  cases e.xgmi_info with
  | none => simp [dget?, dset]
  | some x => by_cases ht : pyTruthy (Val.dictV x) = true <;> simp [dget?, dset, ht]

theorem look_throttle_status (e : Env) :
    dget? (get_gpu_info e) "throttle_status" = fs_throttle_status e := by
  simp only [get_gpu_info]
  rw [processStep_frame (by decide)]
  simp only [violationStep, fs_throttle_status]
  cases e.violation_status with
  | none => simp [dget?, dset]
  | some v =>
    by_cases ht : pyTruthy (Val.dictV v) = true
    · repeat' split
      all_goals simp_all [dget?, dset]
    · simp [dget?, dset, ht]

theorem look_processes (e : Env) :
    dget? (get_gpu_info e) "processes" = fs_processes e := by
  simp only [get_gpu_info]
  simp only [processStep, fs_processes]
  cases e.process_list with
  | none => simp [dget?, dset]
  | some v => by_cases ht : pyTruthy v = true <;> simp [dget?, dset, ht]

theorem look_pcie_width (e : Env) :
    dget? (get_gpu_info e) "pcie_width" = fs_pcie_width e := by
  simp only [get_gpu_info]
  rw [processStep_frame (by decide),
      violationStep_frame (by decide),
      numaStep_frame (by decide),
      xgmiStep_frame (by decide),
      throughputStep_frame (by decide) (by decide)]
  have hfr : ∀ (p i : Dict), dget? (pcieStaticPart p i) "pcie_width" = dget? i "pcie_width" :=
    fun p i => pcieStaticPart_frame (by decide) (by decide)
  simp only [pcieStep, fs_pcie_width]
  cases e.pcie_info with
  | none => simp [dget?, dset]
  | some p =>
    by_cases hm : hasKey p "pcie_metric" = true
    · rcases hv : (dget? p "pcie_metric").getD Val.noneV <;>
        simp [hm, hv, hfr, dget?, dset]
    · simp [hm, hfr, dget?, dset]

theorem look_pcie_speed (e : Env) :
    dget? (get_gpu_info e) "pcie_speed" = fs_pcie_speed e := by
  simp only [get_gpu_info]
  rw [processStep_frame (by decide),
      violationStep_frame (by decide),
      numaStep_frame (by decide),
      xgmiStep_frame (by decide),
      throughputStep_frame (by decide) (by decide)]
  have hfr : ∀ (p i : Dict), dget? (pcieStaticPart p i) "pcie_speed" = dget? i "pcie_speed" :=
    fun p i => pcieStaticPart_frame (by decide) (by decide)
  simp only [pcieStep, fs_pcie_speed]
  cases e.pcie_info with
  | none => simp [dget?, dset]
  | some p =>
    by_cases hm : hasKey p "pcie_metric" = true
    · rcases hv : (dget? p "pcie_metric").getD Val.noneV <;>
        simp [hm, hv, hfr, dget?, dset]
    · simp [hm, hfr, dget?, dset]

theorem look_pcie_replay_count (e : Env) :
    dget? (get_gpu_info e) "pcie_replay_count" = fs_pcie_replay_count e := by
  simp only [get_gpu_info]
  rw [processStep_frame (by decide),
      violationStep_frame (by decide),
      numaStep_frame (by decide),
      xgmiStep_frame (by decide),
      throughputStep_frame (by decide) (by decide)]
  have hfr : ∀ (p i : Dict), dget? (pcieStaticPart p i) "pcie_replay_count" = dget? i "pcie_replay_count" :=
    fun p i => pcieStaticPart_frame (by decide) (by decide)
  simp only [pcieStep, fs_pcie_replay_count]
  cases e.pcie_info with
  | none => simp [dget?, dset]
  | some p =>
    by_cases hm : hasKey p "pcie_metric" = true
    · rcases hv : (dget? p "pcie_metric").getD Val.noneV <;>
        simp [hm, hv, hfr, dget?, dset]
    · simp [hm, hfr, dget?, dset]

theorem look_pcie_max_width (e : Env) :
    dget? (get_gpu_info e) "pcie_max_width" = fs_pcie_static "max_pcie_width" e := by
  simp only [get_gpu_info]
  rw [processStep_frame (by decide),
      violationStep_frame (by decide),
      numaStep_frame (by decide),
      xgmiStep_frame (by decide),
      throughputStep_frame (by decide) (by decide)]
  simp only [pcieStep, fs_pcie_static]
  cases e.pcie_info with
  | none => simp [dget?, dset]
  | some p =>
    by_cases hm : hasKey p "pcie_metric" = true
    · rcases hv : (dget? p "pcie_metric").getD Val.noneV <;>
        simp only [hm, hv, if_true, isDictVal, Bool.not_true, Bool.and_false, Bool.not_false,
          Bool.and_true, Bool.true_and, if_false, pcieStaticPart] <;>
      first
      | (by_cases hs : hasKey p "pcie_static" = true
         · rcases hw : (dget? p "pcie_static").getD Val.noneV <;> simp [hs, hw, dget?, dset]
         · simp [hs, dget?, dset])
      | simp [dget?, dset]
    · simp only [hm, Bool.false_and, Bool.not_false, if_false, pcieStaticPart,
        Bool.false_eq_true, ite_false]
      by_cases hs : hasKey p "pcie_static" = true
      · rcases hw : (dget? p "pcie_static").getD Val.noneV <;> simp [hm, hs, hw, dget?, dset]
      · simp [hm, hs, dget?, dset]

theorem look_pcie_max_speed (e : Env) :
    dget? (get_gpu_info e) "pcie_max_speed" = fs_pcie_static "max_pcie_speed" e := by
  simp only [get_gpu_info]
  rw [processStep_frame (by decide),
      violationStep_frame (by decide),
      numaStep_frame (by decide),
      xgmiStep_frame (by decide),
      throughputStep_frame (by decide) (by decide)]
  simp only [pcieStep, fs_pcie_static]
  cases e.pcie_info with
  | none => simp [dget?, dset]
  | some p =>
    by_cases hm : hasKey p "pcie_metric" = true
    · rcases hv : (dget? p "pcie_metric").getD Val.noneV <;>
        simp only [hm, hv, if_true, isDictVal, Bool.not_true, Bool.and_false, Bool.not_false,
          Bool.and_true, Bool.true_and, if_false, pcieStaticPart] <;>
      first
      | (by_cases hs : hasKey p "pcie_static" = true
         · rcases hw : (dget? p "pcie_static").getD Val.noneV <;> simp [hs, hw, dget?, dset]
         · simp [hs, dget?, dset])
      | simp [dget?, dset]
    · simp only [hm, Bool.false_and, Bool.not_false, if_false, pcieStaticPart,
        Bool.false_eq_true, ite_false]
      by_cases hs : hasKey p "pcie_static" = true
      · rcases hw : (dget? p "pcie_static").getD Val.noneV <;> simp [hm, hs, hw, dget?, dset]
      · simp [hm, hs, dget?, dset]

/-- The collector agrees field-by-field with its per-field functional view:
every record field's value is the function of its own try-block calls given
by `fieldSpec`. -/
theorem collector_correct (e : Env) : ∀ k ∈ recordKeys, dget? (get_gpu_info e) k = fieldSpec k e := by
  intro k hk
  simp only [recordKeys, List.mem_cons, List.not_mem_nil, or_false] at hk
  obtain rfl|rfl|rfl|rfl|rfl|rfl|rfl|rfl|rfl|rfl|rfl|rfl|rfl|rfl|rfl|rfl|rfl|rfl|rfl|rfl|rfl|rfl|rfl|rfl|rfl|rfl|rfl|rfl|rfl|rfl|rfl|rfl|rfl|rfl|rfl|rfl|rfl|rfl|rfl|rfl|rfl|rfl|rfl|rfl|rfl|rfl|rfl|rfl|rfl|rfl|rfl|rfl|rfl|rfl|rfl|rfl|rfl|rfl|rfl|rfl|rfl|rfl|rfl|rfl := hk
  · exact look_product_name e
  · exact look_vendor_name e
  · exact look_device_id e
  · exact look_compute_units e
  · exact look_gfx_version e
  · exact look_manufacturer e
  · exact look_serial e
  · exact look_uuid e
  · exact look_bdf e
  · exact look_driver_version e
  · exact look_driver_date e
  · exact look_vbios_version e
  · exact look_vbios_date e
  · exact look_firmware_info e
  · exact look_edge_temp e
  · exact look_junction_temp e
  · exact look_mem_temp e
  · exact look_critical_temp e
  · exact look_gpu_util e
  · exact look_mem_util e
  · exact look_mm_util e
  · exact look_encoder_util e
  · exact look_decoder_util e
  · exact look_gpu_clock e
  · exact look_gpu_clock_min e
  · exact look_gpu_clock_max e
  · exact look_mem_clock e
  · exact look_mem_clock_min e
  · exact look_mem_clock_max e
  · exact look_gpu_available_freqs e
  · exact look_perf_level e
  · exact look_power e
  · exact look_power_avg e
  · exact look_power_cap e
  · exact look_power_cap_default e
  · exact look_power_cap_min e
  · exact look_power_cap_max e
  · exact look_energy_counter e
  · exact look_voltage_gfx e
  · exact look_voltage_soc e
  · exact look_voltage_mem e
  · exact look_vram_used e
  · exact look_vram_total e
  · exact look_vram_type e
  · exact look_vram_vendor e
  · exact look_vram_bit_width e
  · exact look_fan_speed_pct e
  · exact look_fan_speed_rpm e
  · exact look_fan_max_rpm e
  · exact look_ecc_enabled e
  · exact look_single_ecc e
  · exact look_double_ecc e
  · exact look_bad_pages e
  · exact look_pcie_width e
  · exact look_pcie_speed e
  · exact look_pcie_max_width e
  · exact look_pcie_max_speed e
  · exact look_pcie_replay_count e
  · exact look_pcie_tx e
  · exact look_pcie_rx e
  · exact look_xgmi_info e
  · exact look_numa_node e
  · exact look_throttle_status e
  · exact look_processes e


/-! ## Helper lemmas for the claim theorems -/

/-- The only value Python-equal to the sentinel string is the sentinel. -/
theorem isNA_eq {v : Val} (h : isNA v = true) : v = Val.str "N/A" := by
  cases v <;> simp [isNA] at h ⊢
  exact h

/-! ## Claim theorems -/

/-- C1 (counterexample): with every call succeeding except the junction
temperature probe, the record's `mem_temp` field is the sentinel even
though the VRAM-temperature call would have returned 62 (the probe is
skipped because it shares the junction probe's try block), contradicting
"no probe's failure prevents any other probe call from being attempted"
and "every field sourced from any other call holds the value that call
returned". -/
theorem c1_counterexample :
    envJunctionFail.temp_vram_current = some (Val.num 62) ∧
    dget? (get_gpu_info envJunctionFail) "mem_temp" = some (Val.str "N/A") ∧
    dget? (get_gpu_info allOk) "mem_temp" = some (Val.num 62) := by
  refine ⟨rfl, ?_, ?_⟩
  · rw [look_mem_temp]
    with_unfolding_all rfl
  · rw [look_mem_temp]
    with_unfolding_all rfl

/-- C1 (amended): fault isolation holds per try block, not per call: every
record field is exactly the function `fieldSpec` of the calls of its own
try block, so one call's failure affects only its own block's fields —
sentinelling its own field(s) and those of the block's later, skipped
calls — while every field of every other block holds the value computed
from its own call's result. -/
theorem c1_per_block_fault_isolation (e : Env) :
    ∀ k ∈ recordKeys, dget? (get_gpu_info e) k = fieldSpec k e :=
  collector_correct e

theorem c1_per_block_fault_isolation_witness :
    "mem_temp" ∈ recordKeys ∧
    dget? (get_gpu_info envJunctionFail) "mem_temp" = fieldSpec "mem_temp" envJunctionFail :=
  ⟨by decide, c1_per_block_fault_isolation envJunctionFail "mem_temp" (by decide)⟩

/-- C4 (counterexample): the empty-string input does not format to "N/A";
it falls into the fallback branch and renders as the bare unit. -/
theorem c4_counterexample :
    format_value (Val.str "") "MHz" 1 = some "MHz" ∧ "MHz" ≠ "N/A" := by
  constructor
  · with_unfolding_all rfl
  · decide

/-- C4 (amended): for every unit string and divisor, `format_value` applied
to the sentinel "N/A" or to `None` returns exactly "N/A"; an empty-string
input instead falls through to the fallback branch and returns the
whitespace-trimmed unit. -/
theorem c4_sentinel_formatting (unit : String) (divisor : ℚ) :
    format_value (Val.str "N/A") unit divisor = some "N/A" ∧
    format_value Val.noneV unit divisor = some "N/A" ∧
    format_value (Val.str "") unit divisor = some ((" " ++ unit).trim) := by
  refine ⟨rfl, rfl, ?_⟩
  with_unfolding_all rfl

/-- C8: on every run of `main` — normal completion, initialization or
enumeration failure, or a per-device error — the shutdown call is invoked
exactly once, and its own failure is suppressed: the printed output does
not depend on whether shutdown raises. -/
theorem c8_shutdown_on_every_path (me : MainEnv) :
    (mainRun me).2 = 1 ∧
    (mainRun me).1 = (mainRun { me with shutdownFails := false }).1 := by
  refine ⟨rfl, ?_⟩
  cases me with
  | mk initOk handles shutdownFails => cases shutdownFails <;> rfl

/-- C9: for every behavior of the vendor library, the `decoder_util` field
is the sentinel "N/A" (initialized and never reassigned), and the report's
"Decoder Utilization" line therefore formats to "N/A". -/
theorem c9_decoder_always_sentinel (e : Env) :
    dget? (get_gpu_info e) "decoder_util" = some (Val.str "N/A") ∧
    format_value (Val.str "N/A") "%" 1 = some "N/A" :=
  ⟨(collector_correct e "decoder_util" (by decide)).trans rfl, rfl⟩

/-- C10: the three range lines are built by string concatenation of the min
and max values before `format_value` is applied, so with both components
sentinel the value is the string "N/A - N/A" and the line renders as
"N/A - N/A MHz" (clock rows) or "N/A - N/A W" (power-cap row), never as
the bare "N/A". -/
theorem c10_range_lines (mn mx : Val) (h1 : isNA mn = true) (h2 : isNA mx = true) :
    rangeValue mn mx = Val.str "N/A - N/A" ∧
    format_value (rangeValue mn mx) "MHz" 1 = some "N/A - N/A MHz" ∧
    format_value (rangeValue mn mx) "W" 1 = some "N/A - N/A W" ∧
    "N/A - N/A MHz" ≠ "N/A" ∧ "N/A - N/A W" ≠ "N/A" := by
  rw [isNA_eq h1, isNA_eq h2]
  refine ⟨rfl, ?_, ?_, by decide, by decide⟩ <;> with_unfolding_all rfl

theorem c10_range_lines_witness :
    rangeValue (Val.str "N/A") (Val.str "N/A") = Val.str "N/A - N/A" ∧
    format_value (rangeValue (Val.str "N/A") (Val.str "N/A")) "MHz" 1 = some "N/A - N/A MHz" ∧
    format_value (rangeValue (Val.str "N/A") (Val.str "N/A")) "W" 1 = some "N/A - N/A W" ∧
    "N/A - N/A MHz" ≠ "N/A" ∧ "N/A - N/A W" ≠ "N/A" :=
  c10_range_lines (Val.str "N/A") (Val.str "N/A") rfl rfl


theorem dget?_ne_nil {d : Dict} {k : String} {v : Val} (h : dget? d k = some v) : d ≠ [] := by
  intro he
  subst he
  simp [dget?] at h

theorem pySum_map_num (qs : List ℚ) : pySum (qs.map Val.num) = some qs.sum := by
  induction qs with
  | nil => rfl
  | cons q qs ih => simp [pySum, ih]

/-- A non-integer rational's idealized repr has a decimal point followed by
non-empty fractional digits. -/
theorem decimalRepr_shape (q : ℚ) :
    ∃ a b, b ≠ "" ∧ decimalRepr q = a ++ "." ++ b := by
  simp only [decimalRepr]
  refine ⟨_, _, ?_, rfl⟩
  split
  · decide
  · assumption

/-- C3 (counterexample): with both VRAM fields zero (both non-sentinel),
the "Usage Percentage" computation performs the division and raises an
uncaught `ZeroDivisionError`: the record's rendering aborts instead of
showing "N/A". -/
theorem c3_counterexample :
    usagePct (Val.num 0) (Val.num 0) = none ∧
    dget? (get_gpu_info envVramZero) "vram_used" = some (Val.num 0) ∧
    dget? (get_gpu_info envVramZero) "vram_total" = some (Val.num 0) ∧
    (print_gpu_info 0 (get_gpu_info envVramZero)).2 = false := by
  refine ⟨by with_unfolding_all rfl, ?_, ?_, ?_⟩
  · rw [look_vram_used]
    with_unfolding_all rfl
  · rw [look_vram_total]
    with_unfolding_all rfl
  · with_unfolding_all rfl

/-- C3 (amended): the usage percentage is guarded only against sentinel
operands: either operand "N/A" yields "N/A"; with numeric operands the
division is always attempted — rendered to one decimal place when the
total is non-zero, and an uncaught `ZeroDivisionError` when it is zero
(there is no denominator guard in the code). -/
theorem c3_usage_guard (used total : Val) :
    (isNA used = true ∨ isNA total = true → usagePct used total = some (Val.str "N/A")) ∧
    (∀ u t : ℚ, pyFloat used = some u → pyFloat total = some t →
      isNA used = false → isNA total = false →
      (t ≠ 0 → usagePct used total = some (Val.str (formatFixed (100 * u / t) 1))) ∧
      (t = 0 → usagePct used total = none)) := by
  constructor
  · intro h
    rcases h with h | h <;> simp [usagePct, naV, h]
  · intro u t hu ht h1 h2
    constructor
    · intro hz
      simp [usagePct, naV, h1, h2, hu, ht, hz]
    · intro hz
      simp [usagePct, naV, h1, h2, hu, ht, hz]

theorem c3_usage_guard_witness :
    usagePct (Val.num 512) (Val.num 1024) = some (Val.str "50.0") := by
  have h := ((c3_usage_guard (Val.num 512) (Val.num 1024)).2 512 1024 rfl rfl rfl rfl).1
    (by norm_num)
  rw [h]
  with_unfolding_all rfl

/-- C5: for every numeric `v`, unit, and non-zero divisor `d`,
`format_value` renders the exact quotient `v / d`: as the integer's
decimal string (no fractional part) when `v / d` is mathematically an
integer, and with a decimal point and non-empty fractional digits
otherwise; the unit is appended space-separated and the result trimmed. -/
theorem c5_numeric_formatting (v d : ℚ) (unit : String) (hd : d ≠ 0) :
    ∃ numStr, format_value (Val.num v) unit d = some ((numStr ++ " " ++ unit).trim) ∧
      ((v / d).den = 1 → numStr = toString (v / d).num) ∧
      ((v / d).den ≠ 1 → ∃ intDigits fracDigits, fracDigits ≠ "" ∧
        numStr = intDigits ++ "." ++ fracDigits) := by
  refine ⟨renderNum (v / d), ?_, ?_, ?_⟩
  · simp [format_value, isNA, isNone, pyFloat, hd]
  · intro h1
    simp [renderNum, h1]
  · intro h1
    rw [renderNum, if_neg h1]
    exact decimalRepr_shape (v / d)

theorem c5_numeric_formatting_witness :
    ∃ numStr, format_value (Val.num 7) "W" 2 = some ((numStr ++ " " ++ "W").trim) ∧
      (((7 : ℚ) / 2).den = 1 → numStr = toString ((7 : ℚ) / 2).num) ∧
      (((7 : ℚ) / 2).den ≠ 1 → ∃ intDigits fracDigits, fracDigits ≠ "" ∧
        numStr = intDigits ++ "." ++ fracDigits) :=
  c5_numeric_formatting 7 2 "W" (by norm_num)

/-- C7: when the metrics query succeeds and `vcn_activity` is a non-empty
list whose non-sentinel elements are the numbers `qs`, the record's
`encoder_util` is the arithmetic mean of `qs` (and the sentinel when every
element is sentinel); when the metrics query fails, it is the sentinel. -/
theorem c7_encoder_mean (e : Env) :
    (e.gpu_metrics_info = none →
      dget? (get_gpu_info e) "encoder_util" = some (Val.str "N/A")) ∧
    (∀ m l qs, e.gpu_metrics_info = some m →
      dget? m "vcn_activity" = some (Val.listV l) → l ≠ [] →
      l.filter (fun v => !(isNA v)) = qs.map Val.num →
      (qs = [] → dget? (get_gpu_info e) "encoder_util" = some (Val.str "N/A")) ∧
      (qs ≠ [] → dget? (get_gpu_info e) "encoder_util" =
        some (Val.num (qs.sum / qs.length)))) := by
  have hmaster := collector_correct e "encoder_util" (by decide)
  have hfs : fieldSpec "encoder_util" e = fs_encoder_util e := rfl
  rw [hfs] at hmaster
  constructor
  · intro h
    rw [hmaster]
    simp [fs_encoder_util, naV, h]
  · intro m l qs hm hl hlne hfilter
    have hmne : m ≠ [] := dget?_ne_nil hl
    have htr : pyTruthy (Val.dictV m) = true := by
      simp [pyTruthy, List.isEmpty_eq_true, hmne]
    have hhk : hasKey m "vcn_activity" = true := by simp [hasKey, hl]
    have hle : l.isEmpty = false := by
      cases l with
      | nil => exact absurd rfl hlne
      | cons x xs => rfl
    constructor
    · intro hq
      subst hq
      rw [hmaster]
      have hfe : l.filter (fun v => !(isNA v)) = [] := by simpa using hfilter
      simp [fs_encoder_util, naV, hm, htr, hhk, hl, hle, hfe]
    · intro hq
      rw [hmaster]
      have hsum := pySum_map_num qs
      have hqe : (qs.map Val.num).isEmpty = false := by
        cases qs with
        | nil => exact absurd rfl hq
        | cons x xs => rfl
      simp [fs_encoder_util, naV, hm, htr, hhk, hl, hle, hfilter, hsum, hqe]

theorem c7_encoder_mean_witness :
    dget? (get_gpu_info allOk) "encoder_util" = some (Val.num 15) := by
  have h := ((c7_encoder_mean allOk).2
    [("vcn_activity", Val.listV [Val.num 10, Val.str "N/A", Val.num 20])]
    [Val.num 10, Val.str "N/A", Val.num 20] [10, 20]
    rfl rfl (List.cons_ne_nil _ _) rfl).2 (List.cons_ne_nil _ _)
  rw [h]
  with_unfolding_all rfl


/-- C2 (counterexample): when the asic-info probe fails, its `except`
branch sets only `product_name`, so the record lacks `device_id` entirely
(not even a sentinel), and the reporter, which reads it with a direct
subscript, fails on the missing key instead of rendering. -/
theorem c2_counterexample :
    dget? (get_gpu_info envAsicFail) "device_id" = none ∧
    (print_gpu_info 0 (get_gpu_info envAsicFail)).2 = false := by
  constructor
  · rw [look_device_id]
    with_unfolding_all rfl
  · with_unfolding_all rfl

/-- C2 (amended): provided the asic-info probe succeeds, the record holds a
value (at worst the sentinel) for every field name the report template
reads, including `device_id`, `compute_units` and `gfx_version`
(`vendor_name` is collected but never read by the reporter); when that
probe fails, those identification fields are absent and rendering fails on
the missing key. -/
theorem c2_record_completeness (e : Env) (a : Dict) (ha : e.asic_info = some a) :
    ∀ k ∈ templateReadKeys, (dget? (get_gpu_info e) k).isSome = true := by
  intro k hk
  simp only [templateReadKeys, sectionKeys, List.cons_append, List.nil_append,
    List.mem_cons, List.not_mem_nil, or_false] at hk
  obtain rfl|rfl|rfl|rfl|rfl|rfl|rfl|rfl|rfl|rfl|rfl|rfl|rfl|rfl|rfl|rfl|rfl|rfl|rfl|rfl|rfl|rfl|rfl|rfl|rfl|rfl|rfl|rfl|rfl|rfl|rfl|rfl|rfl|rfl|rfl|rfl|rfl|rfl|rfl|rfl|rfl|rfl|rfl|rfl|rfl|rfl|rfl|rfl|rfl|rfl|rfl|rfl|rfl|rfl|rfl := hk
  · rw [collector_correct e "product_name" (by decide)]
    rfl
  · rw [collector_correct e "bdf" (by decide)]
    rfl
  · rw [collector_correct e "uuid" (by decide)]
    rfl
  · rw [collector_correct e "device_id" (by decide)]
    simp only [show fieldSpec "device_id" e = fs_device_id e from rfl, fs_device_id, ha]
    rfl
  · rw [collector_correct e "compute_units" (by decide)]
    simp only [show fieldSpec "compute_units" e = fs_compute_units e from rfl, fs_compute_units, ha]
    rfl
  · rw [collector_correct e "gfx_version" (by decide)]
    simp only [show fieldSpec "gfx_version" e = fs_gfx_version e from rfl, fs_gfx_version, ha]
    rfl
  · rw [collector_correct e "driver_version" (by decide)]
    rfl
  · rw [collector_correct e "vbios_version" (by decide)]
    rfl
  · rw [collector_correct e "gpu_util" (by decide)]
    rfl
  · rw [collector_correct e "mem_util" (by decide)]
    rfl
  · rw [collector_correct e "mm_util" (by decide)]
    rfl
  · rw [collector_correct e "encoder_util" (by decide)]
    rfl
  · rw [collector_correct e "decoder_util" (by decide)]
    rfl
  · rw [collector_correct e "perf_level" (by decide)]
    rfl
  · rw [collector_correct e "edge_temp" (by decide)]
    rfl
  · rw [collector_correct e "junction_temp" (by decide)]
    rfl
  · rw [collector_correct e "mem_temp" (by decide)]
    rfl
  · rw [collector_correct e "critical_temp" (by decide)]
    rfl
  · rw [collector_correct e "throttle_status" (by decide)]
    rfl
  · rw [collector_correct e "gpu_clock" (by decide)]
    rfl
  · rw [collector_correct e "gpu_clock_min" (by decide)]
    rfl
  · rw [collector_correct e "gpu_clock_max" (by decide)]
    rfl
  · rw [collector_correct e "mem_clock" (by decide)]
    rfl
  · rw [collector_correct e "mem_clock_min" (by decide)]
    rfl
  · rw [collector_correct e "mem_clock_max" (by decide)]
    rfl
  · rw [collector_correct e "power" (by decide)]
    rfl
  · rw [collector_correct e "power_avg" (by decide)]
    rfl
  · rw [collector_correct e "power_cap" (by decide)]
    rfl
  · rw [collector_correct e "power_cap_min" (by decide)]
    rfl
  · rw [collector_correct e "power_cap_max" (by decide)]
    rfl
  · rw [collector_correct e "power_cap_default" (by decide)]
    rfl
  · rw [collector_correct e "voltage_gfx" (by decide)]
    rfl
  · rw [collector_correct e "voltage_soc" (by decide)]
    rfl
  · rw [collector_correct e "voltage_mem" (by decide)]
    rfl
  · rw [collector_correct e "vram_type" (by decide)]
    rfl
  · rw [collector_correct e "vram_vendor" (by decide)]
    rfl
  · rw [collector_correct e "vram_bit_width" (by decide)]
    rfl
  · rw [collector_correct e "vram_used" (by decide)]
    rfl
  · rw [collector_correct e "vram_total" (by decide)]
    rfl
  · rw [collector_correct e "fan_speed_pct" (by decide)]
    rfl
  · rw [collector_correct e "fan_speed_rpm" (by decide)]
    rfl
  · rw [collector_correct e "fan_max_rpm" (by decide)]
    rfl
  · rw [collector_correct e "pcie_width" (by decide)]
    rfl
  · rw [collector_correct e "pcie_speed" (by decide)]
    rfl
  · rw [collector_correct e "pcie_max_width" (by decide)]
    rfl
  · rw [collector_correct e "pcie_max_speed" (by decide)]
    rfl
  · rw [collector_correct e "pcie_tx" (by decide)]
    rfl
  · rw [collector_correct e "pcie_rx" (by decide)]
    rfl
  · rw [collector_correct e "pcie_replay_count" (by decide)]
    rfl
  · rw [collector_correct e "numa_node" (by decide)]
    rfl
  · rw [collector_correct e "ecc_enabled" (by decide)]
    rfl
  · rw [collector_correct e "single_ecc" (by decide)]
    rfl
  · rw [collector_correct e "double_ecc" (by decide)]
    rfl
  · rw [collector_correct e "bad_pages" (by decide)]
    rfl
  · rw [collector_correct e "processes" (by decide)]
    rfl

theorem c2_record_completeness_witness :
    allOk.asic_info = some asicOk ∧ "device_id" ∈ templateReadKeys ∧
    (dget? (get_gpu_info allOk) "device_id").isSome = true :=
  ⟨rfl, by decide, c2_record_completeness allOk asicOk rfl "device_id" (by decide)⟩


/-- C6: for every byte count `b ≥ 0`, `format_bytes` (binary) renders
`b / 1024 ^ k` to two decimal places followed by the unit at ladder index
`k`, where `k` is the smallest index with `b / 1024 ^ k < 1024`, or the
last index 4 when no index satisfies it (the scaling loop is structural
recursion over the unit ladder and always terminates). -/
theorem c6_format_bytes (b : ℚ) (hb : 0 ≤ b) :
    format_bytes (Val.num b) true =
      formatFixed (b / 1024 ^ ladderIndexSpec b) 2 ++ " " ++
        (["B", "KiB", "MiB", "GiB", "TiB"].getD (ladderIndexSpec b) "") ∧
    (ladderIndexSpec b < 4 → b / 1024 ^ ladderIndexSpec b < 1024) ∧
    (∀ j : ℕ, b / 1024 ^ j < 1024 → ladderIndexSpec b ≤ j) := by
  have h1024 : (0 : ℚ) < 1024 := by norm_num
  have hpow : ∀ k : ℕ, (1024 : ℚ) * 1024 ^ k = 1024 ^ (k + 1) := fun k => by ring
  have hdivlt : ∀ k : ℕ, (b / 1024 ^ k < 1024 ↔ b < 1024 ^ (k + 1)) := fun k => by
    rw [div_lt_iff (pow_pos h1024 k), hpow k]
  have hlediv : ∀ k : ℕ, (1024 ≤ b / 1024 ^ k ↔ 1024 ^ (k + 1) ≤ b) := fun k => by
    rw [le_div_iff (pow_pos h1024 k), hpow k]
  have e1 : b / 1024 = b / 1024 ^ 1 := by rw [pow_one]
  have e2 : b / 1024 / 1024 = b / 1024 ^ 2 := by rw [div_div]; norm_num
  have e3 : b / 1024 / 1024 / 1024 = b / 1024 ^ 3 := by
    rw [div_div, div_div]; norm_num
  have e4 : b / 1024 / 1024 / 1024 / 1024 = b / 1024 ^ 4 := by
    rw [div_div, div_div, div_div]; norm_num
  have hmono : ∀ k j : ℕ, (1024 : ℚ) ^ k ≤ b → b < 1024 ^ (j + 1) → k ≤ j := by
    intro k j hk hj
    have hlt : (1024 : ℚ) ^ k < 1024 ^ (j + 1) := lt_of_le_of_lt hk hj
    have := (pow_lt_pow_iff_right (by norm_num : (1 : ℚ) < 1024)).mp hlt
    omega
  by_cases h0 : b < 1024
  · have hk : ladderIndexSpec b = 0 := by simp [ladderIndexSpec, h0]
    rw [hk]
    have hsl : scaleLoop b 1024 ["B", "KiB", "MiB", "GiB", "TiB"] = (b, "B") := by
      simp [scaleLoop, not_le.mpr h0]
    refine ⟨?_, fun _ => by simpa using h0, fun j _ => Nat.zero_le j⟩
    simp [format_bytes, hsl, pyFloat, isNA, isNone]
  · have c0 : 1024 ≤ b := not_lt.mp h0
    by_cases h1 : b < 1024 ^ 2
    · have hk : ladderIndexSpec b = 1 := by simp [ladderIndexSpec, h0, h1]
      rw [hk]
      have hstop : ¬ 1024 ≤ b / 1024 := by
        rw [e1, not_le, hdivlt 1]
        exact h1
      have hsl : scaleLoop b 1024 ["B", "KiB", "MiB", "GiB", "TiB"] = (b / 1024, "KiB") := by
        simp [scaleLoop, c0, hstop]
      refine ⟨?_, fun _ => by rw [← e1] at *; exact not_le.mp hstop, ?_⟩
      · simp [format_bytes, hsl, pyFloat, isNA, isNone, e1]
      · intro j hj
        rw [hdivlt j] at hj
        exact hmono 1 j (by rw [pow_one]; exact c0) hj
    · have c1 : 1024 ≤ b / 1024 := by
        rw [e1, hlediv 1]
        exact not_lt.mp h1
      by_cases h2 : b < 1024 ^ 3
      · have hk : ladderIndexSpec b = 2 := by simp [ladderIndexSpec, h0, h1, h2]
        rw [hk]
        have hstop : ¬ 1024 ≤ b / 1024 / 1024 := by
          rw [e2, not_le, hdivlt 2]
          exact h2
        have hsl : scaleLoop b 1024 ["B", "KiB", "MiB", "GiB", "TiB"] =
            (b / 1024 / 1024, "MiB") := by
          simp [scaleLoop, c0, c1, hstop]
        refine ⟨?_, fun _ => by rw [← e2] at *; exact not_le.mp hstop, ?_⟩
        · simp [format_bytes, hsl, pyFloat, isNA, isNone, e2]
        · intro j hj
          rw [hdivlt j] at hj
          exact hmono 2 j (not_lt.mp h1) hj
      · have c2 : 1024 ≤ b / 1024 / 1024 := by
          rw [e2, hlediv 2]
          exact not_lt.mp h2
        by_cases h3 : b < 1024 ^ 4
        · have hk : ladderIndexSpec b = 3 := by simp [ladderIndexSpec, h0, h1, h2, h3]
          rw [hk]
          have hstop : ¬ 1024 ≤ b / 1024 / 1024 / 1024 := by
            rw [e3, not_le, hdivlt 3]
            exact h3
          have hsl : scaleLoop b 1024 ["B", "KiB", "MiB", "GiB", "TiB"] =
              (b / 1024 / 1024 / 1024, "GiB") := by
            simp [scaleLoop, c0, c1, c2, hstop]
          refine ⟨?_, fun _ => by rw [← e3] at *; exact not_le.mp hstop, ?_⟩
          · simp [format_bytes, hsl, pyFloat, isNA, isNone, e3]
          · intro j hj
            rw [hdivlt j] at hj
            exact hmono 3 j (not_lt.mp h2) hj
        · have c3 : 1024 ≤ b / 1024 / 1024 / 1024 := by
            rw [e3, hlediv 3]
            exact not_lt.mp h3
          have hk : ladderIndexSpec b = 4 := by simp [ladderIndexSpec, h0, h1, h2, h3]
          rw [hk]
          have hsl : scaleLoop b 1024 ["B", "KiB", "MiB", "GiB", "TiB"] =
              (b / 1024 / 1024 / 1024 / 1024, "TiB") := by
            simp [scaleLoop, c0, c1, c2, c3]
          refine ⟨?_, fun h => by simp at h, ?_⟩
          · simp [format_bytes, hsl, pyFloat, isNA, isNone, e4]
          · intro j hj
            rw [hdivlt j] at hj
            exact hmono 4 j (not_lt.mp h3) hj

theorem c6_format_bytes_witness :
    format_bytes (Val.num 2560) true = "2.50 KiB" := by
  have h := (c6_format_bytes 2560 (by norm_num)).1
  rw [h]
  with_unfolding_all rfl

end RocmLens
